import Mathlib

/-!
# E1.31 (sACN) universe output: header templates and frame dispatch

A shallow embedding of `src/channeloutput/E131.cpp` (Falcon Player): the
`E131OutputData` constructor, `PrepareData` and `GetRequiredChannelRange`,
followed by theorems about them.

Conventions of the embedding.

* C `int` values are `Int`; `/` and `%` of C are `Int.tdiv` and `Int.tmod`
  (truncation towards zero). No `int` overflow is modelled: the arithmetic is
  exact.
* A store into an `unsigned char` keeps the value modulo 256 (`toU8`); a store
  into the `size_t` field `iov_len` keeps it modulo `2^64` (`toSizeT`), a store
  into the `unsigned int` field `msg_len` modulo `2^32` (`toUInt32`).
* A header buffer is the list of its bytes; `e131Headers[x]` is the buffer of
  universe `x`, and the pointer to it is written `IovBase.header x`.
* The channel buffer `channelData` is a map from channel index to byte; a
  pointer into it is the index it points at (`IovBase.channel`).
* `e131defs.h`, `UDPOutput.h` and the `UDPOutputData` base class are not among
  the sources. Their constants are the fields of `Defs`; the base-class fields
  are inputs of the constructor; `toInetAddr`, `NeedToOutputFrame` and
  `SaveFrame` are parameters.
-/

namespace E131

/-! ## Constants declared outside the translated file -/

/-- Constants used by `E131.cpp` and declared in headers that are not part of
the translated sources (`e131defs.h`, `UDPOutput.h`). -/
structure Defs where
  E131_HEADER_LENGTH : Nat
  E131_DEST_PORT : Nat
  E131_PRIORITY_INDEX : Nat
  E131_SEQUENCE_INDEX : Nat
  E131_UNIVERSE_INDEX : Nat
  E131_COUNT_INDEX : Nat
  E131_RLP_COUNT_INDEX : Nat
  E131_FRAMING_COUNT_INDEX : Nat
  E131_DMP_COUNT_INDEX : Nat
  E131_TYPE_MULTICAST : Int
  MULTICAST_MESSAGES_KEY : Nat
  deriving DecidableEq, Repr

/-- The packet skeleton `E131header` of `E131.cpp`, lines 38-47 (character
literals written as their ASCII codes). -/
def E131header : List Nat := [
  0x00, 0x10, 0x00, 0x00, 0x41, 0x53, 0x43, 0x2d, 0x45, 0x31, 0x2e, 0x31, 0x37, 0x00, 0x00, 0x00,
  0x72, 0x6e, 0x00, 0x00, 0x00, 0x04, 0x46, 0x41, 0x4c, 0x43, 0x4f, 0x4e, 0x20, 0x46, 0x50, 0x50,
  0x00, 0x00, 0x00, 0x00, 0x00, 0x00, 0x72, 0x58, 0x00, 0x00, 0x00, 0x02, 0x46, 0x41, 0x4c, 0x43,
  0x4f, 0x4e, 0x43, 0x48, 0x52, 0x49, 0x53, 0x54, 0x4d, 0x41, 0x53, 0x2e, 0x43, 0x4f, 0x4d, 0x20,
  0x42, 0x59, 0x20, 0x44, 0x50, 0x49, 0x54, 0x54, 0x53, 0x20, 0x41, 0x4e, 0x44, 0x20, 0x4d, 0x59,
  0x4b, 0x52, 0x4f, 0x46, 0x54, 0x20, 0x46, 0x41, 0x4c, 0x43, 0x4f, 0x4e, 0x20, 0x50, 0x49, 0x20,
  0x50, 0x4c, 0x41, 0x59, 0x45, 0x52, 0x00, 0x00, 0x00, 0x00, 0x00, 0x00, 0x64, 0x00, 0x00, 0x00,
  0x00, 0x00, 0x01, 0x72, 0x0b, 0x02, 0xa1, 0x00, 0x00, 0x00, 0x01, 0x02, 0x01, 0x00]

/-- The byte indices patched by the constructor, in the order of the writes. -/
def Defs.patchedIndices (d : Defs) : List Nat :=
  [d.E131_PRIORITY_INDEX,
   d.E131_UNIVERSE_INDEX, d.E131_UNIVERSE_INDEX + 1,
   d.E131_COUNT_INDEX, d.E131_COUNT_INDEX + 1,
   d.E131_RLP_COUNT_INDEX, d.E131_RLP_COUNT_INDEX + 1,
   d.E131_FRAMING_COUNT_INDEX, d.E131_FRAMING_COUNT_INDEX + 1,
   d.E131_DMP_COUNT_INDEX, d.E131_DMP_COUNT_INDEX + 1,
   d.E131_SEQUENCE_INDEX]

/-- What the code relies on about the constants: the header length does not
exceed the skeleton (the `memcpy` stays inside `E131header`), every patched
byte lies inside the header, and no two patched bytes coincide. -/
def Defs.WellFormed (d : Defs) : Prop :=
  d.E131_HEADER_LENGTH ≤ E131header.length ∧
  (∀ i ∈ d.patchedIndices, i < d.E131_HEADER_LENGTH) ∧
  d.patchedIndices.Nodup

instance (d : Defs) : Decidable d.WellFormed := by
  unfold Defs.WellFormed; infer_instance

/-- The values of the constants in the E1.31 packet layout that the skeleton
follows (flag bytes `0x72` at 16, 38 and 115, priority `0x64` at 108), with
UDP port 5568; used to instantiate the theorems. -/
def stdDefs : Defs where
  E131_HEADER_LENGTH := 126
  E131_DEST_PORT := 5568
  E131_PRIORITY_INDEX := 108
  E131_SEQUENCE_INDEX := 111
  E131_UNIVERSE_INDEX := 113
  E131_COUNT_INDEX := 123
  E131_RLP_COUNT_INDEX := 16
  E131_FRAMING_COUNT_INDEX := 38
  E131_DMP_COUNT_INDEX := 115
  E131_TYPE_MULTICAST := 0
  MULTICAST_MESSAGES_KEY := 0

/-! ## Machine-level helpers -/

/-- Conversion of an `int` to `unsigned char`: the value modulo 256. -/
def toU8 (v : Int) : Nat := (v % 256).toNat

/-- Conversion of an `int` to `size_t` (64 bits): the value modulo `2^64`. -/
def toSizeT (v : Int) : Int := v % 18446744073709551616

/-- Conversion of an `int` to `unsigned int` (32 bits): the value modulo `2^32`. -/
def toUInt32 (v : Int) : Int := v % 4294967296

/-- The 32-bit value `s_addr` of the IPv4 address `a.b.c.d`: the four octets
in network order, read on a little-endian host. -/
def mkInAddr (a b c d : Nat) : Nat := a + 256 * b + 65536 * c + 16777216 * d

/-- Octet `k` (0 is the first) of an `s_addr` value. -/
def octet (s : Nat) (k : Nat) : Nat := s / 256 ^ k % 256

/-- Value `INADDR_NONE` returned by `inet_addr` for a malformed string. -/
def INADDR_NONE : Nat := 0xFFFFFFFF

/-- Function `inet_addr` on the string that `snprintf` prints for
`"%d.%d.%d.%d"`: the address when each part is in 0..255, `INADDR_NONE`
otherwise (a negative or too large part is not a dotted quad). -/
def inet_addr_dotted (a b c d : Int) : Nat :=
  if 0 ≤ a ∧ a ≤ 255 ∧ 0 ≤ b ∧ b ≤ 255 ∧ 0 ≤ c ∧ c ≤ 255 ∧ 0 ≤ d ∧ d ≤ 255 then
    mkInAddr a.toNat b.toNat c.toNat d.toNat
  else INADDR_NONE

/-- Function `htons` on a little-endian host: the two bytes of a 16-bit
value swapped. -/
def htons (p : Nat) : Nat := (p % 256) * 256 + (p / 256) % 256

/-- Value of `AF_INET`. -/
def AF_INET : Nat := 2

/-! ## Data model -/

/-- Struct `sockaddr_in`. -/
structure SockAddrIn where
  sin_family : Nat
  sin_port : Nat
  sin_addr : Nat
  deriving DecidableEq, Repr, Inhabited

/-- A pointer stored in `iov_base`: null, the header buffer of a universe, or
a position in the live channel buffer. -/
inductive IovBase where
  | null
  | header (x : Nat)
  | channel (index : Int)
  deriving DecidableEq, Repr, Inhabited

/-- Struct `iovec`; `iov_len` is a `size_t`, a value in `[0, 2^64)`. -/
structure Iovec where
  iov_base : IovBase
  iov_len : Int
  deriving DecidableEq, Repr

instance : Inhabited Iovec := ⟨⟨IovBase.null, 0⟩⟩

/-- The fields that the `UDPOutputData` base constructor has set when the body
of the `E131OutputData` constructor starts. -/
structure UDPOutputData where
  valid : Bool
  active : Bool
  type : Int
  startChannel : Int
  channelCount : Int
  skippedFrames : Int
  ipAddress : String
  deriving DecidableEq, Repr

/-- The members of the JSON configuration read by the constructor;
`universeCount` is `none` when the member is absent. -/
structure Config where
  id : Int
  priority : Int
  universeCount : Option Int
  address : String
  deriving DecidableEq, Repr

/-- Class `E131OutputData` with the inherited fields it uses. -/
structure E131OutputData where
  valid : Bool
  active : Bool
  type : Int
  startChannel : Int
  channelCount : Int
  skippedFrames : Int
  ipAddress : String
  /-- Field `universe` of the source (a reserved word here). -/
  universeId : Int
  universeCount : Int
  priority : Int
  e131Iovecs : List Iovec
  e131Headers : List (List Nat)
  e131Addresses : List SockAddrIn
  deriving DecidableEq, Repr

/-! ## The constructor -/

/-- The writes of lines 116-140 into the header buffer `e131Buffer` of universe
`uni`, in the order of the source. -/
def patchHeader (d : Defs) (priority channelCount uni : Int) (e131Buffer : List Nat) :
    List Nat :=
  let e131Buffer := e131Buffer.set d.E131_PRIORITY_INDEX (toU8 priority)
  let e131Buffer := e131Buffer.set d.E131_UNIVERSE_INDEX (toU8 (uni.tdiv 256))
  let e131Buffer := e131Buffer.set (d.E131_UNIVERSE_INDEX + 1) (toU8 (uni.tmod 256))
  let e131Buffer := e131Buffer.set d.E131_COUNT_INDEX (toU8 ((channelCount + 1).tdiv 256))
  let e131Buffer := e131Buffer.set (d.E131_COUNT_INDEX + 1) (toU8 ((channelCount + 1).tmod 256))
  let count := 638 - 16 - (512 - channelCount)
  let e131Buffer := e131Buffer.set d.E131_RLP_COUNT_INDEX (toU8 (count.tdiv 256 + 0x70))
  let e131Buffer := e131Buffer.set (d.E131_RLP_COUNT_INDEX + 1) (toU8 (count.tmod 256))
  let count := 638 - 38 - (512 - channelCount)
  let e131Buffer := e131Buffer.set d.E131_FRAMING_COUNT_INDEX (toU8 (count.tdiv 256 + 0x70))
  let e131Buffer := e131Buffer.set (d.E131_FRAMING_COUNT_INDEX + 1) (toU8 (count.tmod 256))
  let count := 638 - 115 - (512 - channelCount)
  let e131Buffer := e131Buffer.set d.E131_DMP_COUNT_INDEX (toU8 (count.tdiv 256 + 0x70))
  let e131Buffer := e131Buffer.set (d.E131_DMP_COUNT_INDEX + 1) (toU8 (count.tmod 256))
  e131Buffer.set d.E131_SEQUENCE_INDEX 0

/-- The header of universe `uni`, lines 112-140: the first `E131_HEADER_LENGTH`
bytes of the skeleton copied into a fresh buffer, then patched. -/
def buildHeader (d : Defs) (priority channelCount uni : Int) : List Nat :=
  patchHeader d priority channelCount uni (E131header.take d.E131_HEADER_LENGTH)

/-- The variables that the loop of the constructor (lines 99-149) updates. -/
structure CtorState where
  e131Address : SockAddrIn
  e131Iovecs : List Iovec
  e131Headers : List (List Nat)
  e131Addresses : List SockAddrIn
  deriving DecidableEq, Repr

/-- One iteration of the loop of the constructor, lines 100-148. -/
def ctorBody (d : Defs) (type universeId priority channelCount : Int)
    (s : CtorState) (x : Nat) : CtorState :=
  let e131Address :=
    if type = d.E131_TYPE_MULTICAST then
      let u := universeId + x
      { s.e131Address with sin_addr := inet_addr_dotted 239 255 (u.tdiv 256) (u.tmod 256) }
    else s.e131Address
  let e131Addresses := s.e131Addresses.set x e131Address
  let e131Headers := s.e131Headers.set x (buildHeader d priority channelCount (universeId + x))
  let e131Iovecs := s.e131Iovecs.set (x * 2) ⟨IovBase.header x, toSizeT d.E131_HEADER_LENGTH⟩
  let e131Iovecs := e131Iovecs.set (x * 2 + 1) ⟨IovBase.null, toSizeT channelCount⟩
  { e131Address := e131Address, e131Iovecs := e131Iovecs,
    e131Headers := e131Headers, e131Addresses := e131Addresses }

/-- The effective universe count, lines 57 and 65-70. -/
def effectiveUniverseCount (config : Config) : Int :=
  let universeCount := match config.universeCount with
    | some c => c
    | none => 1
  if universeCount < 1 then 1 else universeCount

/-- The value of `ipAddress` after the `switch` of lines 71-78. -/
def ctorIpAddress (base : UDPOutputData) (config : Config) : String :=
  if base.type = 0 then ""
  else if base.type = 1 then config.address
  else base.ipAddress

/-- Lines 58-94 of the constructor: the address variable `e131Address`, the
flags `valid` and `active`, and the warnings reported. `toInetAddr ipAddress
valid` is the resolver of the base class: it returns the address and the new
value of `valid`. -/
def ctorResolve (d : Defs) (toInetAddr : String → Bool → Nat × Bool)
    (base : UDPOutputData) (config : Config) : (SockAddrIn × Bool × Bool) × List String :=
  let e131Address : SockAddrIn :=
    { sin_family := AF_INET, sin_port := htons d.E131_DEST_PORT, sin_addr := 0 }
  let universeId := config.id
  let ipAddress := ctorIpAddress base config
  if base.type = d.E131_TYPE_MULTICAST then
    (({ e131Address with
          sin_addr := inet_addr_dotted 239 255 (universeId.tdiv 256) (universeId.tmod 256) },
      base.valid, base.active), [])
  else
    let res := toInetAddr ipAddress base.valid
    if !res.2 && base.active then
      (({ e131Address with sin_addr := res.1 }, res.2, false),
        ["Could not resolve host name " ++ ipAddress ++ " - disabling output"])
    else
      (({ e131Address with sin_addr := res.1 }, res.2, base.active), [])

/-- Lines 96-98: the three vectors resized to `n * 2`, `n` and `n` default
elements, with the address variable as the loop finds it. -/
def ctorInit (e131Address : SockAddrIn) (n : Nat) : CtorState :=
  { e131Address := e131Address,
    e131Iovecs := List.replicate (n * 2) default,
    e131Headers := List.replicate n [],
    e131Addresses := List.replicate n default }

/-- The constructor `E131OutputData::E131OutputData`, lines 55-150. The result
is the object together with the warnings reported. -/
def construct (d : Defs) (toInetAddr : String → Bool → Nat × Bool)
    (base : UDPOutputData) (config : Config) : E131OutputData × List String :=
  let universeId := config.id
  let priority := config.priority
  let universeCount := effectiveUniverseCount config
  let r := ctorResolve d toInetAddr base config
  let n := universeCount.toNat
  let s := (List.range n).foldl (ctorBody d base.type universeId priority base.channelCount)
    (ctorInit r.1.1 n)
  ({ valid := r.1.2.1, active := r.1.2.2, type := base.type,
     startChannel := base.startChannel, channelCount := base.channelCount,
     skippedFrames := base.skippedFrames, ipAddress := ctorIpAddress base config,
     universeId := universeId, universeCount := universeCount, priority := priority,
     e131Iovecs := s.e131Iovecs, e131Headers := s.e131Headers,
     e131Addresses := s.e131Addresses }, r.2)

/-! ## Frame dispatch -/

/-- Size of `struct sockaddr_in`. -/
def SIZEOF_SOCKADDR_IN : Nat := 16

/-- Struct `mmsghdr` with the fields that `PrepareData` sets (the others are
zeroed by the `memset`). `msg_name` is the index `x` of `&e131Addresses[x]`,
`msg_iov` the index `i` of `&e131Iovecs[i]`; `msg_len` is an `unsigned int`, a
value in `[0, 2^32)`. -/
structure Mmsghdr where
  msg_name : Nat
  msg_namelen : Nat
  msg_iov : Nat
  msg_iovlen : Nat
  msg_len : Int
  deriving DecidableEq, Repr

/-- Class `UDPOutputMessages`: the batch, a list of messages for each
destination key (`operator[]` gives the empty list for an unused key). -/
abbrev UDPOutputMessages := Nat → List Mmsghdr

/-- The live channel buffer: the byte at each channel index. -/
abbrev ChannelData := Int → Nat

/-- The change-detection collaborator of the base class, with its private
state `σ`. `NeedToOutputFrame store skippedFrames channelData startChannel
savedIdx count` answers the query and gives the new private state;
`SaveFrame store channelData index len` saves the `len` bytes at
`&channelData[index]`. -/
structure FrameStore (σ : Type) where
  NeedToOutputFrame : σ → Int → ChannelData → Int → Int → Int → Bool × σ
  SaveFrame : σ → ChannelData → Int → Int → σ

/-- A call made to the collaborator: the arguments after `channelData`, and
for a query its answer. -/
inductive Event where
  | query (startChannel savedIdx count : Int) (result : Bool)
  | save (index len : Int)
  deriving DecidableEq, Repr

/-- The variables of the loop of `PrepareData` (lines 164-192), the batch,
the private state of the collaborator and the record of the calls made. -/
structure PrepState (σ : Type) where
  cur : Int
  start : Int
  skipped : Bool
  allSkipped : Bool
  msgs : UDPOutputMessages
  e131Headers : List (List Nat)
  e131Iovecs : List Iovec
  store : σ
  trace : List Event

/-- The batch key used for universe `x`, lines 178-182. -/
def batchKey (d : Defs) (o : E131OutputData) (x : Nat) : Nat :=
  if o.type = d.E131_TYPE_MULTICAST then d.MULTICAST_MESSAGES_KEY
  else (o.e131Addresses.getD x default).sin_addr

/-- The message built for universe `x`, lines 170-177. -/
def mkMsg (d : Defs) (o : E131OutputData) (x : Nat) : Mmsghdr :=
  { msg_name := x, msg_namelen := SIZEOF_SOCKADDR_IN, msg_iov := x * 2, msg_iovlen := 2,
    msg_len := toUInt32 (o.channelCount + d.E131_HEADER_LENGTH) }

/-- Operator `++` on the `unsigned char` at `E131_SEQUENCE_INDEX` of a header. -/
def bumpHeader (d : Defs) (h : List Nat) : List Nat :=
  h.set d.E131_SEQUENCE_INDEX ((h.getD d.E131_SEQUENCE_INDEX 0 + 1) % 256)

/-- Statement `++e131Headers[x][E131_SEQUENCE_INDEX]`, line 184. -/
def bumpSequence (d : Defs) (headers : List (List Nat)) (x : Nat) : List (List Nat) :=
  headers.set x (bumpHeader d (headers.getD x []))

/-- Statement `e131Iovecs[x * 2 + 1].iov_base = (void*)cur`, line 185. -/
def bindPayload (iovecs : List Iovec) (x : Nat) (cur : Int) : List Iovec :=
  iovecs.set (x * 2 + 1)
    { (iovecs.getD (x * 2 + 1) default) with iov_base := IovBase.channel cur }

/-- One iteration of the loop of `PrepareData`, lines 169-191. -/
def prepareBody {σ : Type} (d : Defs) (fs : FrameStore σ) (o : E131OutputData)
    (channelData : ChannelData) (s : PrepState σ) (x : Nat) : PrepState σ :=
  let q := fs.NeedToOutputFrame s.store o.skippedFrames channelData
    (o.startChannel - 1) s.start o.channelCount
  let trace := s.trace ++ [Event.query (o.startChannel - 1) s.start o.channelCount q.1]
  if q.1 then
    let key := batchKey d o x
    { cur := s.cur + o.channelCount,
      start := s.start + o.channelCount,
      skipped := s.skipped,
      allSkipped := false,
      msgs := Function.update s.msgs key (s.msgs key ++ [mkMsg d o x]),
      e131Headers := bumpSequence d s.e131Headers x,
      e131Iovecs := bindPayload s.e131Iovecs x s.cur,
      store := q.2,
      trace := trace }
  else
    { cur := s.cur + o.channelCount,
      start := s.start + o.channelCount,
      skipped := true,
      allSkipped := s.allSkipped,
      msgs := s.msgs,
      e131Headers := s.e131Headers,
      e131Iovecs := s.e131Iovecs,
      store := q.2,
      trace := trace }

/-- What a call of `PrepareData` leaves behind: the object, the batch, the
private state of the collaborator and the calls made to it. -/
structure PrepResult (σ : Type) where
  obj : E131OutputData
  msgs : UDPOutputMessages
  store : σ
  trace : List Event

/-- The state in which the loop of `PrepareData` starts, lines 164-167. -/
def prepareInit {σ : Type} (o : E131OutputData) (store : σ) (msgs : UDPOutputMessages) :
    PrepState σ :=
  { cur := o.startChannel - 1, start := 0, skipped := false, allSkipped := true,
    msgs := msgs, e131Headers := o.e131Headers, e131Iovecs := o.e131Iovecs,
    store := store, trace := [] }

/-- The loop of `PrepareData` run for the universes `0 .. n-1`. -/
def prepareLoop {σ : Type} (d : Defs) (fs : FrameStore σ) (o : E131OutputData)
    (channelData : ChannelData) (store : σ) (msgs : UDPOutputMessages) (n : Nat) :
    PrepState σ :=
  (List.range n).foldl (prepareBody d fs o channelData) (prepareInit o store msgs)

/-- Method `E131OutputData::PrepareData`, lines 162-202. -/
def PrepareData {σ : Type} (d : Defs) (fs : FrameStore σ) (o : E131OutputData) (store : σ)
    (channelData : ChannelData) (msgs : UDPOutputMessages) : PrepResult σ :=
  if o.valid && o.active then
    let s := prepareLoop d fs o channelData store msgs o.universeCount.toNat
    let skippedFrames := if s.skipped then o.skippedFrames + 1 else 0
    let o1 := { o with skippedFrames := skippedFrames, e131Headers := s.e131Headers,
                       e131Iovecs := s.e131Iovecs }
    if !s.allSkipped then
      { obj := o1, msgs := s.msgs,
        store := fs.SaveFrame s.store channelData (o.startChannel - 1) s.start,
        trace := s.trace ++ [Event.save (o.startChannel - 1) s.start] }
    else
      { obj := o1, msgs := s.msgs, store := s.store, trace := s.trace }
  else
    { obj := o, msgs := msgs, store := store, trace := [] }

/-- Method `E131OutputData::GetRequiredChannelRange`, lines 204-207: the pair
`(min, max)`. -/
def GetRequiredChannelRange (o : E131OutputData) : Int × Int :=
  (o.startChannel - 1, o.startChannel + (o.channelCount * o.universeCount) - 1)

/-- The answers of the queries recorded in a trace, in the order of the calls. -/
def queryResults : List Event → List Bool
  | [] => []
  | Event.query _ _ _ r :: t => r :: queryResults t
  | Event.save _ _ :: t => queryResults t

/-! ## Vocabulary of the statements -/

/-- The address that the constructor loop, started with the address variable
`a0`, stores for universe `x`. -/
def ctorAddress (d : Defs) (ty u : Int) (a0 : SockAddrIn) (x : Nat) : SockAddrIn :=
  if ty = d.E131_TYPE_MULTICAST then
    { sin_family := a0.sin_family, sin_port := a0.sin_port,
      sin_addr := inet_addr_dotted 239 255 ((u + x).tdiv 256) ((u + x).tmod 256) }
  else a0

/-- The segment that the constructor stores at position `i` of `e131Iovecs`. -/
def ctorIovec (d : Defs) (cc : Int) (i : Nat) : Iovec :=
  if i % 2 = 0 then ⟨IovBase.header (i / 2), toSizeT d.E131_HEADER_LENGTH⟩
  else ⟨IovBase.null, toSizeT cc⟩

/-- The two bytes of `hdr` at `idx` hold `length` as a flags-and-length field:
the first byte is `(length >> 8) + 0x70`, the second `length & 0xFF`, the top
nibble of the first is 7 and the low 12 bits of the pair decode to `length`. -/
def LayerLengthStored (hdr : List Nat) (idx : Nat) (length : Nat) : Prop :=
  ∃ b0 b1 : Nat, hdr[idx]? = some b0 ∧ hdr[idx + 1]? = some b1 ∧
    b0 = (length >>> 8) + 0x70 ∧ b1 = length &&& 0xFF ∧
    b0 / 16 = 7 ∧ (b0 % 16) * 256 + b1 = length

/-- A segment with its base rebound to the channel buffer at `cur`. -/
def rebind (cur : Int) (v : Iovec) : Iovec := { v with iov_base := IovBase.channel cur }

/-- The half-open interval `[a, b)` of channel indices of universe `x`. -/
def universeSlice (o : E131OutputData) (x : Nat) : Int × Int :=
  (o.startChannel - 1 + x * o.channelCount, o.startChannel - 1 + (x + 1) * o.channelCount)

/-- The half-open interval of channel indices named by a call to the
collaborator: `[startChannel + savedIdx, startChannel + savedIdx + count)` for
a query, `[index, index + len)` for a save. -/
def eventSlice : Event → Int × Int
  | Event.query startChannel savedIdx count _ =>
    (startChannel + savedIdx, startChannel + savedIdx + count)
  | Event.save index len => (index, index + len)

/-! ## Sample inputs -/

/-- A resolver that accepts every name and answers 10.0.0.5. -/
def sampleResolver : String → Bool → Nat × Bool := fun _ _ => (mkInAddr 10 0 0 5, true)

/-- A resolver that fails on every name. -/
def failingResolver : String → Bool → Nat × Bool := fun _ _ => (0, false)

/-- Base-class fields of a unicast output of 512 channels starting at channel 1. -/
def sampleBase : UDPOutputData :=
  { valid := true, active := true, type := 1, startChannel := 1, channelCount := 512,
    skippedFrames := 0, ipAddress := "" }

/-- Base-class fields of a multicast output of 512 channels starting at channel 1. -/
def sampleMulticastBase : UDPOutputData := { sampleBase with type := 0 }

/-- Base-class fields of a unicast output whose channel count is negative. -/
def negativeBase : UDPOutputData := { sampleBase with channelCount := -200 }

/-- Configuration of scenario A: universe 1, two universes, address 10.0.0.5. -/
def sampleConfig : Config :=
  { id := 1, priority := 100, universeCount := some 2, address := "10.0.0.5" }

/-- Configuration of scenario B: universe 5, three universes, multicast. -/
def sampleMulticastConfig : Config :=
  { id := 5, priority := 100, universeCount := some 3, address := "" }

/-! ## The change-detection collaborator as the specification describes it -/

/-- The `len` bytes of the channel buffer from index `index` on. -/
def slice (channelData : ChannelData) (index len : Int) : List Nat :=
  (List.range len.toNat).map (fun (i : Nat) => channelData (index + (i : Int)))

/-- Modelled from the spec: the change-detection collaborator, that is the
methods `NeedToOutputFrame` and `SaveFrame` of the base class `UDPOutputData`,
whose code is not part of `E131.cpp`. The private state is the snapshot, if one
was saved. The query on `(channelData, offset, runningStart, length)` answers
true iff no snapshot exists or the slice of `length` bytes at
`offset + runningStart` differs from the `length` bytes of the snapshot at
`runningStart`; it leaves the snapshot alone. The save stores the given slice. -/
def specFrameStore : FrameStore (Option (List Nat)) where
  NeedToOutputFrame := fun store _ channelData startChannel savedIdx count =>
    (match store with
      | none => true
      | some saved =>
        decide (slice channelData (startChannel + savedIdx) count ≠
          (saved.drop savedIdx.toNat).take count.toNat), store)
  SaveFrame := fun _ channelData index len => some (slice channelData index len)

/-- A collaborator that reports every universe as changed and keeps no state. -/
def alwaysChanged : FrameStore Unit where
  NeedToOutputFrame := fun _ _ _ _ _ _ => (true, ())
  SaveFrame := fun _ _ _ _ => ()

/-- A channel buffer with every channel at zero. -/
def zeroChannels : ChannelData := fun _ => 0

/-- The empty batch. -/
def emptyBatch : UDPOutputMessages := fun _ => []

/-- The output of scenario A as the constructor leaves it. -/
def sampleOutput : E131OutputData := (construct stdDefs sampleResolver sampleBase sampleConfig).1

/-- The output of scenario A with the negative channel count, as the
constructor leaves it. -/
def negativeOutput : E131OutputData :=
  (construct stdDefs sampleResolver negativeBase sampleConfig).1

/-- The output of scenario B as the constructor leaves it. -/
def sampleMulticastOutput : E131OutputData :=
  (construct stdDefs sampleResolver sampleMulticastBase sampleMulticastConfig).1

/-- Configuration of a multicast output whose universes run past 65535:
universe 63999 with 1538 universes. -/
def overflowMulticastConfig : Config :=
  { id := 63999, priority := 100, universeCount := some 1538, address := "" }

/-! ## Auxiliary lemmas -/

theorem Defs.WellFormed.facts {d : Defs} (hd : d.WellFormed) :
    d.E131_HEADER_LENGTH ≤ 126 ∧
    (d.E131_PRIORITY_INDEX < d.E131_HEADER_LENGTH ∧
     d.E131_UNIVERSE_INDEX + 1 < d.E131_HEADER_LENGTH ∧
     d.E131_COUNT_INDEX + 1 < d.E131_HEADER_LENGTH ∧
     d.E131_RLP_COUNT_INDEX + 1 < d.E131_HEADER_LENGTH ∧
     d.E131_FRAMING_COUNT_INDEX + 1 < d.E131_HEADER_LENGTH ∧
     d.E131_DMP_COUNT_INDEX + 1 < d.E131_HEADER_LENGTH ∧
     d.E131_SEQUENCE_INDEX < d.E131_HEADER_LENGTH) ∧
    d.patchedIndices.Pairwise (fun a b => a ≠ b) := by
  obtain ⟨h1, h2, h3⟩ := hd
  refine ⟨by simpa [E131header] using h1, ?_, h3⟩
  simp only [Defs.patchedIndices, List.mem_cons, List.mem_singleton, List.not_mem_nil,
    or_false, forall_eq_or_imp, forall_eq] at h2
  omega

/-- The standard constants are well-formed. -/
theorem stdDefs_wellFormed : stdDefs.WellFormed := by
  refine ⟨?_, ?_, ?_⟩
  · show (126 : Nat) ≤ E131header.length
    exact Nat.le_of_eq rfl
  · intro i hi
    simp only [Defs.patchedIndices, stdDefs, List.mem_cons, List.mem_singleton,
      List.not_mem_nil, or_false] at hi
    show i < 126
    omega
  · simp only [Defs.patchedIndices, stdDefs]
    decide

theorem getElem?_set_if {α : Type} (l : List α) (i j : Nat) (v : α) :
    (l.set i v)[j]? = if j = i then (if i < l.length then some v else none) else l[j]? := by
  rw [List.getElem?_set]
  by_cases h : i = j
  · subst h; simp
  · have h2 : ¬ j = i := fun e => h e.symm
    simp [h, h2]

theorem patchHeader_getElem? (d : Defs) (p cc u : Int) (l : List Nat) (j : Nat)
    (hl : l.length = d.E131_HEADER_LENGTH)
    (h2 : d.E131_PRIORITY_INDEX < d.E131_HEADER_LENGTH ∧
     d.E131_UNIVERSE_INDEX + 1 < d.E131_HEADER_LENGTH ∧
     d.E131_COUNT_INDEX + 1 < d.E131_HEADER_LENGTH ∧
     d.E131_RLP_COUNT_INDEX + 1 < d.E131_HEADER_LENGTH ∧
     d.E131_FRAMING_COUNT_INDEX + 1 < d.E131_HEADER_LENGTH ∧
     d.E131_DMP_COUNT_INDEX + 1 < d.E131_HEADER_LENGTH ∧
     d.E131_SEQUENCE_INDEX < d.E131_HEADER_LENGTH) :
    (patchHeader d p cc u l)[j]? =
      if j = d.E131_SEQUENCE_INDEX then some 0
      else if j = d.E131_DMP_COUNT_INDEX + 1 then some (toU8 ((638 - 115 - (512 - cc)).tmod 256))
      else if j = d.E131_DMP_COUNT_INDEX then some (toU8 ((638 - 115 - (512 - cc)).tdiv 256 + 0x70))
      else if j = d.E131_FRAMING_COUNT_INDEX + 1 then some (toU8 ((638 - 38 - (512 - cc)).tmod 256))
      else if j = d.E131_FRAMING_COUNT_INDEX then some (toU8 ((638 - 38 - (512 - cc)).tdiv 256 + 0x70))
      else if j = d.E131_RLP_COUNT_INDEX + 1 then some (toU8 ((638 - 16 - (512 - cc)).tmod 256))
      else if j = d.E131_RLP_COUNT_INDEX then some (toU8 ((638 - 16 - (512 - cc)).tdiv 256 + 0x70))
      else if j = d.E131_COUNT_INDEX + 1 then some (toU8 ((cc + 1).tmod 256))
      else if j = d.E131_COUNT_INDEX then some (toU8 ((cc + 1).tdiv 256))
      else if j = d.E131_UNIVERSE_INDEX + 1 then some (toU8 (u.tmod 256))
      else if j = d.E131_UNIVERSE_INDEX then some (toU8 (u.tdiv 256))
      else if j = d.E131_PRIORITY_INDEX then some (toU8 p)
      else l[j]? := by
  obtain ⟨b1, b2, b3, b4, b5, b6, b7⟩ := h2
  have c2 := Nat.lt_of_succ_lt b2
  have c3 := Nat.lt_of_succ_lt b3
  have c4 := Nat.lt_of_succ_lt b4
  have c5 := Nat.lt_of_succ_lt b5
  have c6 := Nat.lt_of_succ_lt b6
  simp only [patchHeader, getElem?_set_if, List.length_set, hl, b1, b2, b3, b4, b5, b6, b7,
    c2, c3, c4, c5, c6, if_true]

/-- Every byte of a built header, by index. -/
theorem buildHeader_getElem? (d : Defs) (hd : d.WellFormed) (p cc u : Int) (j : Nat) :
    (buildHeader d p cc u)[j]? =
      if j = d.E131_SEQUENCE_INDEX then some 0
      else if j = d.E131_DMP_COUNT_INDEX + 1 then some (toU8 ((638 - 115 - (512 - cc)).tmod 256))
      else if j = d.E131_DMP_COUNT_INDEX then some (toU8 ((638 - 115 - (512 - cc)).tdiv 256 + 0x70))
      else if j = d.E131_FRAMING_COUNT_INDEX + 1 then some (toU8 ((638 - 38 - (512 - cc)).tmod 256))
      else if j = d.E131_FRAMING_COUNT_INDEX then some (toU8 ((638 - 38 - (512 - cc)).tdiv 256 + 0x70))
      else if j = d.E131_RLP_COUNT_INDEX + 1 then some (toU8 ((638 - 16 - (512 - cc)).tmod 256))
      else if j = d.E131_RLP_COUNT_INDEX then some (toU8 ((638 - 16 - (512 - cc)).tdiv 256 + 0x70))
      else if j = d.E131_COUNT_INDEX + 1 then some (toU8 ((cc + 1).tmod 256))
      else if j = d.E131_COUNT_INDEX then some (toU8 ((cc + 1).tdiv 256))
      else if j = d.E131_UNIVERSE_INDEX + 1 then some (toU8 (u.tmod 256))
      else if j = d.E131_UNIVERSE_INDEX then some (toU8 (u.tdiv 256))
      else if j = d.E131_PRIORITY_INDEX then some (toU8 p)
      else (E131header.take d.E131_HEADER_LENGTH)[j]? := by
  obtain ⟨h1, h2, -⟩ := hd.facts
  have hl : (List.take d.E131_HEADER_LENGTH E131header).length = d.E131_HEADER_LENGTH := by
    rw [List.length_take]
    have : E131header.length = 126 := rfl
    omega
  exact patchHeader_getElem? d p cc u _ j hl h2

/-- Writing entry `m` of a list whose entries below `m` are already final. -/
theorem set_step {α : Type} (l l0 : List α) (m : Nat) (f : Nat → α)
    (hlen : l.length = l0.length)
    (h : ∀ x, l[x]? = if x < m ∧ x < l0.length then some (f x) else l0[x]?) (x : Nat) :
    (l.set m (f m))[x]? = if x < m + 1 ∧ x < l0.length then some (f x) else l0[x]? := by
  rw [getElem?_set_if, h x, hlen]
  by_cases hxm : x = m
  · subst hxm
    by_cases hl : x < l0.length
    · simp [hl]
    · simp [hl]; omega
  · by_cases hlt : x < m
    · have : x < m + 1 := Nat.lt_succ_of_lt hlt
      simp [hxm, hlt, this]
    · have : ¬ x < m + 1 := by omega
      simp [hxm, hlt, this]

/-- State of the constructor loop after the first `m` universes. -/
theorem ctorLoop_spec (d : Defs) (ty u p cc : Int) (s0 : CtorState) (m : Nat) :
    let s := (List.range m).foldl (ctorBody d ty u p cc) s0
    s.e131Headers.length = s0.e131Headers.length ∧
    s.e131Addresses.length = s0.e131Addresses.length ∧
    s.e131Iovecs.length = s0.e131Iovecs.length ∧
    s.e131Address.sin_family = s0.e131Address.sin_family ∧
    s.e131Address.sin_port = s0.e131Address.sin_port ∧
    (ty ≠ d.E131_TYPE_MULTICAST → s.e131Address = s0.e131Address) ∧
    (∀ x, s.e131Headers[x]? =
      if x < m ∧ x < s0.e131Headers.length then some (buildHeader d p cc (u + x))
      else s0.e131Headers[x]?) ∧
    (∀ x, s.e131Addresses[x]? =
      if x < m ∧ x < s0.e131Addresses.length then some (ctorAddress d ty u s0.e131Address x)
      else s0.e131Addresses[x]?) ∧
    (∀ i, s.e131Iovecs[i]? =
      if i < m * 2 ∧ i < s0.e131Iovecs.length then some (ctorIovec d cc i)
      else s0.e131Iovecs[i]?) := by
  induction m with
  | zero => simp
  | succ m ih =>
    simp only [List.range_succ, List.foldl_append, List.foldl_cons, List.foldl_nil]
    obtain ⟨h1, h2, h3, h4, h5, h6, h7, h8, h9⟩ := ih
    refine ⟨?_, ?_, ?_, ?_, ?_, ?_, ?_, ?_, ?_⟩
    · simp [ctorBody, h1]
    · simp [ctorBody, h2]
    · simp [ctorBody, h3]
    · simp only [ctorBody]; split_ifs <;> simp [h4]
    · simp only [ctorBody]; split_ifs <;> simp [h5]
    · intro hty; simp only [ctorBody, if_neg hty]; exact h6 hty
    · intro x
      exact set_step _ _ m (fun x => buildHeader d p cc (u + x)) h1 h7 x
    · intro x
      have e : (if ty = d.E131_TYPE_MULTICAST then
          { (List.foldl (ctorBody d ty u p cc) s0 (List.range m)).e131Address with
            sin_addr :=
              inet_addr_dotted 239 255 ((u + (m : Int)).tdiv 256) ((u + (m : Int)).tmod 256) }
          else (List.foldl (ctorBody d ty u p cc) s0 (List.range m)).e131Address)
          = ctorAddress d ty u s0.e131Address m := by
        unfold ctorAddress
        by_cases hty : ty = d.E131_TYPE_MULTICAST
        · simp only [if_pos hty, h4, h5]
        · simp only [if_neg hty]; exact h6 hty
      simp only [ctorBody, e]
      exact set_step _ _ m (ctorAddress d ty u s0.e131Address) h2 h8 x
    · intro i
      have a1 : (⟨IovBase.header m, toSizeT d.E131_HEADER_LENGTH⟩ : Iovec) =
          ctorIovec d cc (m * 2) := by
        simp [ctorIovec]
      have a2 : (⟨IovBase.null, toSizeT cc⟩ : Iovec) = ctorIovec d cc (m * 2 + 1) := by
        have : (m * 2 + 1) % 2 = 1 := by omega
        simp [ctorIovec, this]
      simp only [ctorBody, a1, a2]
      have s1 := set_step _ _ (m * 2) (ctorIovec d cc) h3 h9
      have s2 := set_step _ _ (m * 2 + 1) (ctorIovec d cc) (by simp [h3]) s1 i
      have e2 : (m + 1) * 2 = m * 2 + 1 + 1 := by ring
      rw [e2]; exact s2


/-- The header that the constructor stores for universe `x`. -/
theorem construct_headers (d : Defs) (r : String → Bool → Nat × Bool) (base : UDPOutputData)
    (config : Config) (x : Nat) :
    (construct d r base config).1.e131Headers[x]? =
      if x < (effectiveUniverseCount config).toNat then
        some (buildHeader d config.priority base.channelCount (config.id + x))
      else none := by
  have h := (ctorLoop_spec d base.type config.id config.priority base.channelCount
    (ctorInit (ctorResolve d r base config).1.1 (effectiveUniverseCount config).toNat)
    (effectiveUniverseCount config).toNat).2.2.2.2.2.2.1 x
  simp only [construct]
  rw [h]
  by_cases hx : x < (effectiveUniverseCount config).toNat
  · simp [ctorInit, hx]
  · simp [ctorInit, hx]
    omega

/-- The patched bytes of a built header. -/
theorem buildHeader_fields (d : Defs) (hd : d.WellFormed) (p cc u : Int) :
    let h := buildHeader d p cc u
    h[d.E131_PRIORITY_INDEX]? = some (toU8 p) ∧
    h[d.E131_UNIVERSE_INDEX]? = some (toU8 (u.tdiv 256)) ∧
    h[d.E131_UNIVERSE_INDEX + 1]? = some (toU8 (u.tmod 256)) ∧
    h[d.E131_COUNT_INDEX]? = some (toU8 ((cc + 1).tdiv 256)) ∧
    h[d.E131_COUNT_INDEX + 1]? = some (toU8 ((cc + 1).tmod 256)) ∧
    h[d.E131_RLP_COUNT_INDEX]? = some (toU8 ((638 - 16 - (512 - cc)).tdiv 256 + 0x70)) ∧
    h[d.E131_RLP_COUNT_INDEX + 1]? = some (toU8 ((638 - 16 - (512 - cc)).tmod 256)) ∧
    h[d.E131_FRAMING_COUNT_INDEX]? = some (toU8 ((638 - 38 - (512 - cc)).tdiv 256 + 0x70)) ∧
    h[d.E131_FRAMING_COUNT_INDEX + 1]? = some (toU8 ((638 - 38 - (512 - cc)).tmod 256)) ∧
    h[d.E131_DMP_COUNT_INDEX]? = some (toU8 ((638 - 115 - (512 - cc)).tdiv 256 + 0x70)) ∧
    h[d.E131_DMP_COUNT_INDEX + 1]? = some (toU8 ((638 - 115 - (512 - cc)).tmod 256)) ∧
    h[d.E131_SEQUENCE_INDEX]? = some 0 := by
  obtain ⟨-, -, h3⟩ := hd.facts
  simp only [Defs.patchedIndices, List.pairwise_cons, List.mem_cons, List.mem_singleton,
    List.not_mem_nil, or_false, forall_eq_or_imp, forall_eq, List.Pairwise.nil, and_true,
    IsEmpty.forall_iff, implies_true] at h3
  intro h
  simp only [h, buildHeader_getElem? d hd, h3, if_false, if_true, and_self]

/-- Packing of a length `n` below 4096 kept by the code as `n / 256 + 0x70`
and `n % 256`. -/
theorem pack_length (c : Int) (h0 : 0 ≤ c) (h1 : c < 4096) :
    toU8 (c.tdiv 256 + 0x70) = (c.toNat >>> 8) + 0x70 ∧
    toU8 (c.tmod 256) = c.toNat &&& 0xFF ∧
    ((c.toNat >>> 8) + 0x70) / 16 = 7 ∧
    ((c.toNat >>> 8) + 0x70) % 16 * 256 + (c.toNat &&& 0xFF) = c.toNat := by
  rw [Int.tdiv_eq_ediv h0 (by norm_num), Int.tmod_eq_emod h0 (by norm_num)]
  have e : (0xFF : Nat) = 2 ^ 8 - 1 := by norm_num
  rw [e, Nat.and_pow_two_sub_one_eq_mod]
  simp only [toU8, Nat.shiftRight_eq_div_pow]
  omega

/-! ## Header templates -/

/-- **C1.** For a well-formed set of constants, every configuration, every
universe index `x` below the (effective, hence at least 1) universe count and
every `channelCount` in `[1,512]`, the header built by the constructor for
universe `x` stores, for the root, framing and DMP layers, the length
`layerConstant - (512 - channelCount)` with `layerConstant` equal to `638-16`,
`638-38` and `638-115`: the byte at the count index of the layer is
`(length >> 8) + 0x70`, the next byte is `length & 0xFF`, the top nibble of the
first byte is 7 and the low 12 bits decode to `length`. -/
theorem C1_layer_lengths (d : Defs) (hd : d.WellFormed) (toInetAddr : String → Bool → Nat × Bool)
    (base : UDPOutputData) (config : Config) (x : Nat)
    (hx : (x : Int) < (construct d toInetAddr base config).1.universeCount)
    (hlo : 1 ≤ base.channelCount) (hhi : base.channelCount ≤ 512) :
    1 ≤ (construct d toInetAddr base config).1.universeCount ∧
    ∃ hdr : List Nat, ∃ rlp framing dmp : Nat,
      (construct d toInetAddr base config).1.e131Headers[x]? = some hdr ∧
      (rlp : Int) = 638 - 16 - (512 - base.channelCount) ∧
      (framing : Int) = 638 - 38 - (512 - base.channelCount) ∧
      (dmp : Int) = 638 - 115 - (512 - base.channelCount) ∧
      LayerLengthStored hdr d.E131_RLP_COUNT_INDEX rlp ∧
      LayerLengthStored hdr d.E131_FRAMING_COUNT_INDEX framing ∧
      LayerLengthStored hdr d.E131_DMP_COUNT_INDEX dmp := by
  have hx2 : x < (effectiveUniverseCount config).toNat := by
    have : (construct d toInetAddr base config).1.universeCount =
      effectiveUniverseCount config := rfl
    omega
  have huc : 1 ≤ effectiveUniverseCount config := by
    unfold effectiveUniverseCount; dsimp only; split_ifs <;> omega
  obtain ⟨-, -, -, -, -, f1, f2, f3, f4, f5, f6, -⟩ :=
    buildHeader_fields d hd config.priority base.channelCount (config.id + x)
  obtain ⟨p1, p2, p3, p4⟩ :=
    pack_length (638 - 16 - (512 - base.channelCount)) (by omega) (by omega)
  obtain ⟨q1, q2, q3, q4⟩ :=
    pack_length (638 - 38 - (512 - base.channelCount)) (by omega) (by omega)
  obtain ⟨r1, r2, r3, r4⟩ :=
    pack_length (638 - 115 - (512 - base.channelCount)) (by omega) (by omega)
  refine ⟨huc, buildHeader d config.priority base.channelCount (config.id + x),
    (638 - 16 - (512 - base.channelCount)).toNat, (638 - 38 - (512 - base.channelCount)).toNat,
    (638 - 115 - (512 - base.channelCount)).toNat, ?_, by omega, by omega, by omega, ?_, ?_, ?_⟩
  · rw [construct_headers, if_pos hx2]
  · exact ⟨_, _, f1, f2, p1, p2, by rw [p1]; exact p3, by rw [p1, p2]; exact p4⟩
  · exact ⟨_, _, f3, f4, q1, q2, by rw [q1]; exact q3, by rw [q1, q2]; exact q4⟩
  · exact ⟨_, _, f5, f6, r1, r2, by rw [r1]; exact r3, by rw [r1, r2]; exact r4⟩

/-- Instance of C1: scenario A (two universes of 512 channels), universe index 1. -/
theorem C1_layer_lengths_witness :
    stdDefs.WellFormed ∧
    ((1 : Nat) : Int) < (construct stdDefs sampleResolver sampleBase sampleConfig).1.universeCount ∧
    1 ≤ sampleBase.channelCount ∧ sampleBase.channelCount ≤ 512 ∧
    (1 ≤ (construct stdDefs sampleResolver sampleBase sampleConfig).1.universeCount ∧
    ∃ hdr : List Nat, ∃ rlp framing dmp : Nat,
      (construct stdDefs sampleResolver sampleBase sampleConfig).1.e131Headers[1]? = some hdr ∧
      (rlp : Int) = 638 - 16 - (512 - sampleBase.channelCount) ∧
      (framing : Int) = 638 - 38 - (512 - sampleBase.channelCount) ∧
      (dmp : Int) = 638 - 115 - (512 - sampleBase.channelCount) ∧
      LayerLengthStored hdr stdDefs.E131_RLP_COUNT_INDEX rlp ∧
      LayerLengthStored hdr stdDefs.E131_FRAMING_COUNT_INDEX framing ∧
      LayerLengthStored hdr stdDefs.E131_DMP_COUNT_INDEX dmp) :=
  ⟨stdDefs_wellFormed, by decide, by decide, by decide,
   C1_layer_lengths stdDefs stdDefs_wellFormed sampleResolver sampleBase sampleConfig 1
     (by decide) (by decide) (by decide)⟩

/-- **C2.** For a well-formed set of constants, every configuration, every
universe index `x` below the universe count and every `channelCount` in
`[1,512]`, the two header bytes at `E131_COUNT_INDEX` and `E131_COUNT_INDEX+1`
written by the constructor decode, big-endian, to `channelCount + 1`. -/
theorem C2_property_value_count (d : Defs) (hd : d.WellFormed)
    (toInetAddr : String → Bool → Nat × Bool) (base : UDPOutputData) (config : Config) (x : Nat)
    (hx : (x : Int) < (construct d toInetAddr base config).1.universeCount)
    (hlo : 1 ≤ base.channelCount) (hhi : base.channelCount ≤ 512) :
    ∃ hdr : List Nat, ∃ b0 b1 : Nat,
      (construct d toInetAddr base config).1.e131Headers[x]? = some hdr ∧
      hdr[d.E131_COUNT_INDEX]? = some b0 ∧ hdr[d.E131_COUNT_INDEX + 1]? = some b1 ∧
      b0 < 256 ∧ b1 < 256 ∧
      (256 * b0 + b1 : Int) = base.channelCount + 1 := by
  have hx2 : x < (effectiveUniverseCount config).toNat := by
    have : (construct d toInetAddr base config).1.universeCount =
      effectiveUniverseCount config := rfl
    omega
  obtain ⟨-, -, -, f1, f2, -⟩ :=
    buildHeader_fields d hd config.priority base.channelCount (config.id + x)
  refine ⟨buildHeader d config.priority base.channelCount (config.id + x), _, _, ?_, f1, f2,
    ?_, ?_, ?_⟩
  · rw [construct_headers, if_pos hx2]
  · unfold toU8; omega
  · unfold toU8; omega
  · rw [Int.tdiv_eq_ediv (by omega) (by norm_num), Int.tmod_eq_emod (by omega) (by norm_num)]
    unfold toU8; omega

/-- Instance of C2: scenario A, universe index 1. -/
theorem C2_property_value_count_witness :
    stdDefs.WellFormed ∧
    ((1 : Nat) : Int) < (construct stdDefs sampleResolver sampleBase sampleConfig).1.universeCount ∧
    1 ≤ sampleBase.channelCount ∧ sampleBase.channelCount ≤ 512 ∧
    ∃ hdr : List Nat, ∃ b0 b1 : Nat,
      (construct stdDefs sampleResolver sampleBase sampleConfig).1.e131Headers[1]? = some hdr ∧
      hdr[stdDefs.E131_COUNT_INDEX]? = some b0 ∧ hdr[stdDefs.E131_COUNT_INDEX + 1]? = some b1 ∧
      b0 < 256 ∧ b1 < 256 ∧
      (256 * b0 + b1 : Int) = sampleBase.channelCount + 1 :=
  ⟨stdDefs_wellFormed, by decide, by decide, by decide,
   C2_property_value_count stdDefs stdDefs_wellFormed sampleResolver sampleBase sampleConfig 1
     (by decide) (by decide) (by decide)⟩

/-! ## Frame dispatch: the loop of `PrepareData` -/

theorem queryResults_append_query (t : List Event) (a b c : Int) (r : Bool) :
    queryResults (t ++ [Event.query a b c r]) = queryResults t ++ [r] := by
  induction t with
  | nil => rfl
  | cons e t ih =>
    cases e with
    | query a1 b1 c1 r1 => simp [queryResults, ih]
    | save i l => simp [queryResults, ih]

theorem set_getD_map {α : Type} (l : List α) (i j : Nat) (dflt : α) (f : α → α) :
    (l.set i (f (l.getD i dflt)))[j]? = if j = i then l[i]?.map f else l[j]? := by
  rw [getElem?_set_if]
  by_cases hji : j = i
  · subst hji
    by_cases hl : j < l.length
    · simp [hl, List.getD_eq_getElem?_getD, List.getElem?_eq_getElem hl]
    · have : l[j]? = none := List.getElem?_eq_none (by omega)
      simp [hl, this]
  · simp [hji]

theorem getD_append_one {α : Type} (l : List α) (a dflt : α) (x : Nat) :
    (l ++ [a]).getD x dflt = if x < l.length then l.getD x dflt else if x = l.length then a else dflt := by
  simp only [List.getD_eq_getElem?_getD]
  by_cases h : x < l.length
  · simp [h, List.getElem?_append_left h]
  · simp only [h, if_false]
    rw [List.getElem?_append_right (by omega)]
    by_cases h2 : x = l.length
    · simp [h2]
    · have : x - l.length ≠ 0 := by omega
      simp [h2]
      cases hh : x - l.length with
      | zero => omega
      | succ k => simp


theorem bumpSequence_getElem? (d : Defs) (H : List (List Nat)) (x y : Nat) :
    (bumpSequence d H x)[y]? = if y = x then H[x]?.map (bumpHeader d) else H[y]? :=
  set_getD_map H x y [] (bumpHeader d)

theorem bindPayload_getElem? (V : List Iovec) (x : Nat) (cur : Int) (j : Nat) :
    (bindPayload V x cur)[j]? = if j = x * 2 + 1 then V[x * 2 + 1]?.map (rebind cur) else V[j]? :=
  set_getD_map V (x * 2 + 1) j default (rebind cur)

/-- State of the loop of `PrepareData` after the first `m` universes, in terms
of the answers `rs` of the queries made so far. -/
theorem prepareLoop_spec {σ : Type} (d : Defs) (fs : FrameStore σ) (o : E131OutputData)
    (cd : ChannelData) (store : σ) (msgs : UDPOutputMessages) (m : Nat) :
    let s := prepareLoop d fs o cd store msgs m
    let rs := queryResults s.trace
    rs.length = m ∧
    s.trace = (List.range m).map
      (fun (x : Nat) => Event.query (o.startChannel - 1) (x * o.channelCount) o.channelCount
        (rs.getD x false)) ∧
    s.start = m * o.channelCount ∧
    s.cur = o.startChannel - 1 + m * o.channelCount ∧
    (s.skipped = true ↔ false ∈ rs) ∧
    (s.allSkipped = true ↔ true ∉ rs) ∧
    (∀ k, s.msgs k = msgs k ++
      ((List.range m).filter (fun x => rs.getD x false && decide (batchKey d o x = k))).map
        (mkMsg d o)) ∧
    (∀ x, s.e131Headers[x]? =
      if x < m ∧ rs.getD x false = true then (o.e131Headers[x]?).map (bumpHeader d)
      else o.e131Headers[x]?) ∧
    (∀ i, s.e131Iovecs[i]? =
      if i % 2 = 1 ∧ i / 2 < m ∧ rs.getD (i / 2) false = true then
        (o.e131Iovecs[i]?).map (rebind (o.startChannel - 1 + (i / 2 : Nat) * o.channelCount))
      else o.e131Iovecs[i]?) := by
  induction m with
  | zero =>
    simp [prepareLoop, prepareInit, queryResults]
  | succ m ih =>
    obtain ⟨h1, h2, h3, h4, h5, h6, h7, h8, h9⟩ := ih
    have hstep : prepareLoop d fs o cd store msgs (m + 1) =
        prepareBody d fs o cd (prepareLoop d fs o cd store msgs m) m := by
      simp [prepareLoop, List.range_succ, List.foldl_append]
    generalize hs : prepareLoop d fs o cd store msgs m = s at h1 h2 h3 h4 h5 h6 h7 h8 h9 hstep
    generalize hq : fs.NeedToOutputFrame s.store o.skippedFrames cd (o.startChannel - 1) s.start
      o.channelCount = q
    have htr : (prepareBody d fs o cd s m).trace =
        s.trace ++ [Event.query (o.startChannel - 1) s.start o.channelCount q.1] := by
      simp only [prepareBody, hq]; split_ifs <;> rfl
    have hrs : queryResults (prepareBody d fs o cd s m).trace = queryResults s.trace ++ [q.1] := by
      rw [htr, queryResults_append_query]
    have hget : ∀ x, (queryResults s.trace ++ [q.1]).getD x false =
        if x < m then (queryResults s.trace).getD x false else if x = m then q.1 else false := by
      intro x; rw [getD_append_one, h1]
    intro s' rs'
    have es' : s' = prepareBody d fs o cd s m := hstep
    have ers' : rs' = queryResults s.trace ++ [q.1] := by
      show queryResults s'.trace = _
      rw [es', hrs]
    have hstart : s.start = m * o.channelCount := h3
    refine ⟨?_, ?_, ?_, ?_, ?_, ?_, ?_, ?_, ?_⟩
    · rw [ers']; simp [h1]
    · rw [es', htr, ers', List.range_succ, List.map_append]
      congr 1
      · conv_lhs => rw [h2]
        apply List.map_congr_left
        intro x hx
        have hx' : x < m := List.mem_range.mp hx
        rw [hget x, if_pos hx']
      · simp only [List.map_cons, List.map_nil]
        rw [hget m]
        simp [hstart]
    · rw [es']; simp only [prepareBody, hq]
      split_ifs <;> simp only [h3] <;> push_cast <;> ring
    · rw [es']; simp only [prepareBody, hq]
      split_ifs <;> simp only [h4] <;> push_cast <;> ring
    · rw [es', ers']; simp only [prepareBody, hq, List.mem_append, List.mem_singleton]
      cases hq1 : q.1 <;> simp [h5]
    · rw [es', ers']; simp only [prepareBody, hq, List.mem_append, List.mem_singleton]
      cases hq1 : q.1 <;> simp [h6]
    · intro k
      have hfilt : (List.range m).filter
            (fun x => rs'.getD x false && decide (batchKey d o x = k)) =
          (List.range m).filter
            (fun x => (queryResults s.trace).getD x false && decide (batchKey d o x = k)) := by
        apply List.filter_congr
        intro x hx
        have hx' : x < m := List.mem_range.mp hx
        rw [ers', hget x, if_pos hx']
      have hm : rs'.getD m false = q.1 := by rw [ers', hget m]; simp
      have hm' : rs'[m]?.getD false = q.1 := by rw [← List.getD_eq_getElem?_getD]; exact hm
      rw [List.range_succ, List.filter_append, List.map_append, hfilt, ← List.append_assoc,
        ← h7 k, es']
      simp only [prepareBody, hq]
      cases hq1 : q.1
      · simp [List.filter_cons, hm', hq1]
      · by_cases hk : batchKey d o m = k
        · subst hk
          simp [List.filter_cons, hm', hq1]
        · have hk' : k ≠ batchKey d o m := fun e => hk e.symm
          simp [List.filter_cons, hm', hq1, hk, Function.update_noteq hk']
    · intro x
      have hm : rs'.getD m false = q.1 := by rw [ers', hget m]; simp
      rw [es']; simp only [prepareBody, hq]
      cases hq1 : q.1
      · simp only [Bool.false_eq_true, if_false]
        rw [h8 x, ers', hget x]
        by_cases hx : x < m
        · have : x < m + 1 := by omega
          simp [hx, this]
        · by_cases hxm : x = m
          · simp [hx, hxm, hq1]
          · have : ¬ x < m + 1 := by omega
            simp [hx, this]
      · simp only [if_true]
        rw [bumpSequence_getElem?, h8 x, h8 m, ers', hget x]
        by_cases hx : x < m
        · have : x < m + 1 := by omega
          have hne : x ≠ m := by omega
          simp [hx, this, hne]
        · by_cases hxm : x = m
          · simp [hxm, hq1]
          · have : ¬ x < m + 1 := by omega
            simp [hx, this, hxm]
    · intro i
      rw [es']; simp only [prepareBody, hq]
      cases hq1 : q.1
      · simp only [Bool.false_eq_true, if_false]
        have hg := hget (i / 2)
        rw [← ers'] at hg
        rw [h9 i]
        simp only [hg]
        by_cases hx : i / 2 < m
        · have : i / 2 < m + 1 := by omega
          simp [hx, this]
        · by_cases hxm : i / 2 = m
          · simp [hx, hxm, hq1]
          · have : ¬ i / 2 < m + 1 := by omega
            simp [hx, this]
      · simp only [if_true]
        have hg := hget (i / 2)
        rw [← ers'] at hg
        rw [bindPayload_getElem?, h9 i, h9 (m * 2 + 1), h4]
        simp only [hg]
        have e1 : (m * 2 + 1) / 2 = m := by omega
        have e2 : (m * 2 + 1) % 2 = 1 := by omega
        by_cases him : i = m * 2 + 1
        · subst him
          simp [e1, e2, hq1]
        · by_cases hx : i / 2 < m
          · have : i / 2 < m + 1 := by omega
            simp [him, hx, this]
          · by_cases hxm : i / 2 = m
            · have hodd : ¬ i % 2 = 1 := by omega
              simp [him, hodd]
            · have : ¬ i / 2 < m + 1 := by omega
              simp [him, hx, this]

theorem queryResults_append_save (t : List Event) (a b : Int) :
    queryResults (t ++ [Event.save a b]) = queryResults t := by
  induction t with
  | nil => rfl
  | cons e t ih =>
    cases e with
    | query a1 b1 c1 r1 => simp [queryResults, ih]
    | save i l => simp [queryResults, ih]

/-- What `PrepareData` leaves on a valid and active output, in terms of the
final state of its loop. -/
theorem PrepareData_active {σ : Type} (d : Defs) (fs : FrameStore σ) (o : E131OutputData)
    (store : σ) (cd : ChannelData) (msgs : UDPOutputMessages)
    (hv : o.valid = true) (ha : o.active = true) :
    let s := prepareLoop d fs o cd store msgs o.universeCount.toNat
    let r := PrepareData d fs o store cd msgs
    r.obj = { o with skippedFrames := if s.skipped then o.skippedFrames + 1 else 0,
                     e131Headers := s.e131Headers, e131Iovecs := s.e131Iovecs } ∧
    r.msgs = s.msgs ∧
    queryResults r.trace = queryResults s.trace ∧
    r.trace = (if s.allSkipped then s.trace
      else s.trace ++ [Event.save (o.startChannel - 1) s.start]) ∧
    r.store = (if s.allSkipped then s.store
      else fs.SaveFrame s.store cd (o.startChannel - 1) s.start) := by
  simp only [PrepareData, hv, ha, Bool.and_self, if_true]
  cases hall : (prepareLoop d fs o cd store msgs o.universeCount.toNat).allSkipped <;>
    simp [queryResults_append_save]

/-- The loop of `PrepareData` reads nothing from the header buffers: replacing
them changes no other variable of the loop. -/
theorem prepareLoop_headers_irrelevant {σ : Type} (d : Defs) (fs : FrameStore σ)
    (o : E131OutputData) (H : List (List Nat)) (cd : ChannelData) (store : σ)
    (msgs : UDPOutputMessages) (m : Nat) :
    let s := prepareLoop d fs o cd store msgs m
    let s' := prepareLoop d fs { o with e131Headers := H } cd store msgs m
    s'.cur = s.cur ∧ s'.start = s.start ∧ s'.skipped = s.skipped ∧
    s'.allSkipped = s.allSkipped ∧ s'.msgs = s.msgs ∧ s'.e131Iovecs = s.e131Iovecs ∧
    s'.store = s.store ∧ s'.trace = s.trace := by
  induction m with
  | zero => simp [prepareLoop, prepareInit]
  | succ m ih =>
    have hstep : ∀ o1 : E131OutputData, prepareLoop d fs o1 cd store msgs (m + 1) =
        prepareBody d fs o1 cd (prepareLoop d fs o1 cd store msgs m) m := by
      intro o1; simp [prepareLoop, List.range_succ, List.foldl_append]
    obtain ⟨h1, h2, h3, h4, h5, h6, h7, h8⟩ := ih
    simp only [hstep]
    generalize prepareLoop d fs o cd store msgs m = s at *
    generalize prepareLoop d fs { o with e131Headers := H } cd store msgs m = s' at *
    simp only [prepareBody, h1, h2, h3, h4, h5, h6, h7, h8, batchKey, mkMsg]
    split_ifs <;> simp

theorem bumpHeader_sequence (d : Defs) (h : List Nat) (v : Nat)
    (hv : h[d.E131_SEQUENCE_INDEX]? = some v) :
    (bumpHeader d h)[d.E131_SEQUENCE_INDEX]? = some ((v + 1) % 256) := by
  have hl : d.E131_SEQUENCE_INDEX < h.length := by
    by_contra hc
    rw [List.getElem?_eq_none (by omega)] at hv
    exact Option.noConfusion hv
  simp [bumpHeader, getElem?_set_if, hl, List.getD_eq_getElem?_getD, hv]

/-- The header of universe `x` after `PrepareData`, by the answer of its query. -/
theorem PrepareData_header {σ : Type} (d : Defs) (fs : FrameStore σ) (o : E131OutputData)
    (store : σ) (cd : ChannelData) (msgs : UDPOutputMessages)
    (hv : o.valid = true) (ha : o.active = true) (x : Nat) (hx : x < o.universeCount.toNat) :
    ∃ q : Bool, (queryResults (PrepareData d fs o store cd msgs).trace)[x]? = some q ∧
      (PrepareData d fs o store cd msgs).obj.e131Headers[x]? =
        if q then (o.e131Headers[x]?).map (bumpHeader d) else o.e131Headers[x]? := by
  obtain ⟨a1, -, a3, -, -⟩ := PrepareData_active d fs o store cd msgs hv ha
  obtain ⟨l1, -, -, -, -, -, -, l8, -⟩ :=
    prepareLoop_spec d fs o cd store msgs o.universeCount.toNat
  have hlen : x < (queryResults
      (prepareLoop d fs o cd store msgs o.universeCount.toNat).trace).length := by
    rw [l1]; exact hx
  refine ⟨(queryResults (prepareLoop d fs o cd store msgs o.universeCount.toNat).trace).getD
    x false, ?_, ?_⟩
  · rw [a3, List.getD_eq_getElem?_getD, List.getElem?_eq_getElem hlen]
    simp
  · rw [a1]
    show (prepareLoop d fs o cd store msgs o.universeCount.toNat).e131Headers[x]? = _
    rw [l8 x]
    by_cases hq : (queryResults
        (prepareLoop d fs o cd store msgs o.universeCount.toNat).trace).getD x false = true
    · rw [if_pos ⟨hx, hq⟩, if_pos hq]
    · rw [if_neg (fun hc => hq hc.2), if_neg hq]

/-- The calls made by `PrepareData` do not depend on the header buffers. -/
theorem PrepareData_trace_headers_irrelevant {σ : Type} (d : Defs) (fs : FrameStore σ)
    (o : E131OutputData) (H : List (List Nat)) (store : σ) (cd : ChannelData)
    (msgs : UDPOutputMessages) :
    (PrepareData d fs { o with e131Headers := H } store cd msgs).trace =
      (PrepareData d fs o store cd msgs).trace := by
  obtain ⟨-, h2, -, h4, -, -, -, h8⟩ :=
    prepareLoop_headers_irrelevant d fs o H cd store msgs o.universeCount.toNat
  have e2 : (prepareLoop d fs { o with e131Headers := H } cd store msgs
      o.universeCount.toNat).start = _ := h2
  have e4 : (prepareLoop d fs { o with e131Headers := H } cd store msgs
      o.universeCount.toNat).allSkipped = _ := h4
  have e8 : (prepareLoop d fs { o with e131Headers := H } cd store msgs
      o.universeCount.toNat).trace = _ := h8
  simp only [PrepareData, e2, e4, e8]
  split_ifs <;> rfl

/-- **C3.** For one call of `PrepareData` on a valid, active output and every
universe index `x` below the universe count whose header holds the sequence
byte `v`: the query for universe `x` has an answer `q`; after the call the
sequence byte of header `x` is `(v + 1) mod 256` when `q` is true and `v` when
`q` is false (the header is then untouched). Nothing of this depends on the
other headers: with any other header buffers `H` that keep `v` as the sequence
byte of universe `x`, the calls made and their answers are the same and the
sequence byte of universe `x` ends with the same value. -/
theorem C3_sequence_step {σ : Type} (d : Defs) (fs : FrameStore σ) (o : E131OutputData)
    (store : σ) (cd : ChannelData) (msgs : UDPOutputMessages)
    (hvalid : o.valid = true) (hactive : o.active = true)
    (x : Nat) (hx : (x : Int) < o.universeCount)
    (h : List Nat) (v : Nat) (hh : o.e131Headers[x]? = some h)
    (hv : h[d.E131_SEQUENCE_INDEX]? = some v) :
    ∃ q : Bool, ∃ h1 : List Nat,
      (queryResults (PrepareData d fs o store cd msgs).trace)[x]? = some q ∧
      (PrepareData d fs o store cd msgs).obj.e131Headers[x]? = some h1 ∧
      h1[d.E131_SEQUENCE_INDEX]? = some (if q then (v + 1) % 256 else v) ∧
      (q = false → h1 = h) ∧
      ∀ (H : List (List Nat)) (h2 : List Nat), H[x]? = some h2 →
        h2[d.E131_SEQUENCE_INDEX]? = some v →
        (PrepareData d fs { o with e131Headers := H } store cd msgs).trace =
          (PrepareData d fs o store cd msgs).trace ∧
        ∃ h3 : List Nat,
          (PrepareData d fs { o with e131Headers := H } store cd msgs).obj.e131Headers[x]? =
            some h3 ∧
          h3[d.E131_SEQUENCE_INDEX]? = some (if q then (v + 1) % 256 else v) := by
  have hxn : x < o.universeCount.toNat := by omega
  obtain ⟨q, hq1, hq2⟩ := PrepareData_header d fs o store cd msgs hvalid hactive x hxn
  have hb := bumpHeader_sequence d h v hv
  refine ⟨q, if q then bumpHeader d h else h, hq1, ?_, ?_, ?_, ?_⟩
  · rw [hq2, hh]; cases q <;> simp
  · cases q
    · simpa using hv
    · simpa using hb
  · intro hq; simp [hq]
  · intro H h2 hH hv2
    have htr := PrepareData_trace_headers_irrelevant d fs o H store cd msgs
    refine ⟨htr, ?_⟩
    obtain ⟨q', hq1', hq2'⟩ := PrepareData_header d fs { o with e131Headers := H } store cd msgs
      hvalid hactive x hxn
    rw [htr, hq1] at hq1'
    have hqq : q' = q := (Option.some.inj hq1').symm
    subst hqq
    have hb2 := bumpHeader_sequence d h2 v hv2
    refine ⟨if q' then bumpHeader d h2 else h2, ?_, ?_⟩
    · rw [hq2']
      show (if q' = true then Option.map (bumpHeader d) H[x]? else H[x]?) = _
      rw [hH]; cases q' <;> simp
    · cases q'
      · simpa using hv2
      · simpa using hb2

/-- Instance of C3: scenario A on a first tick without snapshot, universe 1,
whose sequence byte is 0 after construction. -/
theorem C3_sequence_step_witness :
    sampleOutput.valid = true ∧ sampleOutput.active = true ∧
    ((1 : Nat) : Int) < sampleOutput.universeCount ∧
    sampleOutput.e131Headers[1]? = some (buildHeader stdDefs 100 512 (1 + (1 : Nat))) ∧
    (buildHeader stdDefs 100 512 (1 + (1 : Nat)))[stdDefs.E131_SEQUENCE_INDEX]? = some 0 ∧
    ∃ q : Bool, ∃ h1 : List Nat,
      (queryResults (PrepareData stdDefs specFrameStore sampleOutput none zeroChannels
        emptyBatch).trace)[1]? = some q ∧
      (PrepareData stdDefs specFrameStore sampleOutput none zeroChannels
        emptyBatch).obj.e131Headers[1]? = some h1 ∧
      h1[stdDefs.E131_SEQUENCE_INDEX]? = some (if q then (0 + 1) % 256 else 0) :=
  have hh : sampleOutput.e131Headers[1]? = some (buildHeader stdDefs 100 512 (1 + (1 : Nat))) :=
    (construct_headers stdDefs sampleResolver sampleBase sampleConfig 1).trans (if_pos (by decide))
  have hv : (buildHeader stdDefs 100 512 (1 + (1 : Nat)))[stdDefs.E131_SEQUENCE_INDEX]? = some 0 :=
    (buildHeader_fields stdDefs stdDefs_wellFormed 100 512 (1 + (1 : Nat))).2.2.2.2.2.2.2.2.2.2.2
  ⟨rfl, rfl, by decide, hh, hv,
    (C3_sequence_step stdDefs specFrameStore sampleOutput none zeroChannels emptyBatch
      rfl rfl 1 (by decide) _ 0 hh hv).imp fun _ hq =>
        hq.imp fun _ hq1 => ⟨hq1.1, hq1.2.1, hq1.2.2.1⟩⟩

/-! ## Addresses and segments built by the constructor -/

/-- A value in `[0, 2^64)` converts to `size_t` unchanged. -/
theorem toSizeT_of_range (v : Int) (h0 : 0 ≤ v) (h1 : v < 18446744073709551616) :
    toSizeT v = v :=
  Int.emod_eq_of_lt h0 h1

/-- A value in `[0, 2^32)` converts to `unsigned int` unchanged. -/
theorem toUInt32_of_range (v : Int) (h0 : 0 ≤ v) (h1 : v < 4294967296) : toUInt32 v = v :=
  Int.emod_eq_of_lt h0 h1

/-- The header length of well-formed constants converts to `size_t` unchanged. -/
theorem toSizeT_headerLength (d : Defs) (hd : d.WellFormed) :
    toSizeT d.E131_HEADER_LENGTH = d.E131_HEADER_LENGTH := by
  obtain ⟨h1, -, -⟩ := hd.facts
  exact toSizeT_of_range _ (by omega) (by omega)

theorem effectiveUniverseCount_pos (config : Config) : 1 ≤ effectiveUniverseCount config := by
  unfold effectiveUniverseCount; dsimp only; split_ifs <;> omega

/-- The address variable after lines 58-94 keeps the family and the port. -/
theorem ctorResolve_family_port (d : Defs) (r : String → Bool → Nat × Bool)
    (base : UDPOutputData) (config : Config) :
    (ctorResolve d r base config).1.1.sin_family = AF_INET ∧
    (ctorResolve d r base config).1.1.sin_port = htons d.E131_DEST_PORT := by
  unfold ctorResolve; dsimp only; split_ifs <;> exact ⟨rfl, rfl⟩

/-- The address that the constructor stores for universe `x`. -/
theorem construct_addresses (d : Defs) (r : String → Bool → Nat × Bool) (base : UDPOutputData)
    (config : Config) (x : Nat) :
    (construct d r base config).1.e131Addresses[x]? =
      if x < (effectiveUniverseCount config).toNat then
        some (ctorAddress d base.type config.id (ctorResolve d r base config).1.1 x)
      else none := by
  have h := (ctorLoop_spec d base.type config.id config.priority base.channelCount
    (ctorInit (ctorResolve d r base config).1.1 (effectiveUniverseCount config).toNat)
    (effectiveUniverseCount config).toNat).2.2.2.2.2.2.2.1 x
  simp only [construct]
  rw [h]
  by_cases hx : x < (effectiveUniverseCount config).toNat
  · simp [ctorInit, hx]
  · simp [ctorInit, hx]
    omega

/-- The segment that the constructor stores at position `i`. -/
theorem construct_iovecs (d : Defs) (r : String → Bool → Nat × Bool) (base : UDPOutputData)
    (config : Config) (i : Nat) :
    (construct d r base config).1.e131Iovecs[i]? =
      if i < (effectiveUniverseCount config).toNat * 2 then
        some (ctorIovec d base.channelCount i)
      else none := by
  have h := (ctorLoop_spec d base.type config.id config.priority base.channelCount
    (ctorInit (ctorResolve d r base config).1.1 (effectiveUniverseCount config).toNat)
    (effectiveUniverseCount config).toNat).2.2.2.2.2.2.2.2 i
  simp only [construct]
  rw [h]
  by_cases hx : i < (effectiveUniverseCount config).toNat * 2
  · simp [ctorInit, hx]
  · simp [ctorInit, hx]
    omega

/-- The sizes of the three vectors after construction. -/
theorem construct_lengths (d : Defs) (r : String → Bool → Nat × Bool) (base : UDPOutputData)
    (config : Config) :
    (construct d r base config).1.e131Headers.length = (effectiveUniverseCount config).toNat ∧
    (construct d r base config).1.e131Addresses.length = (effectiveUniverseCount config).toNat ∧
    (construct d r base config).1.e131Iovecs.length =
      (effectiveUniverseCount config).toNat * 2 := by
  obtain ⟨h1, h2, h3, -⟩ := ctorLoop_spec d base.type config.id config.priority
    base.channelCount
    (ctorInit (ctorResolve d r base config).1.1 (effectiveUniverseCount config).toNat)
    (effectiveUniverseCount config).toNat
  simp only [construct]
  refine ⟨?_, ?_, ?_⟩
  · rw [h1]; simp [ctorInit]
  · rw [h2]; simp [ctorInit]
  · rw [h3]; simp [ctorInit]

theorem octet_mkInAddr (a b c e : Nat) (ha : a < 256) (hb : b < 256) (hc : c < 256)
    (he : e < 256) :
    octet (mkInAddr a b c e) 0 = a ∧ octet (mkInAddr a b c e) 1 = b ∧
    octet (mkInAddr a b c e) 2 = c ∧ octet (mkInAddr a b c e) 3 = e := by
  simp only [octet, mkInAddr]
  norm_num
  omega

/-- **C4.** For a multicast output with base universe id `U = config.id` and
every index `x` below the universe count with `u = U + x` in `[0,63999]`, the
address stored in `e131Addresses[x]` is the IPv4 address with octets 239, 255,
`u / 256` and `u % 256`, of family `AF_INET` and with port `E131_DEST_PORT` (in
network order). -/
theorem C4_multicast_address (d : Defs) (toInetAddr : String → Bool → Nat × Bool)
    (base : UDPOutputData) (config : Config) (x : Nat)
    (hmc : base.type = d.E131_TYPE_MULTICAST)
    (hx : (x : Int) < (construct d toInetAddr base config).1.universeCount)
    (hlo : 0 ≤ config.id + x) (hhi : config.id + x ≤ 63999) :
    ∃ a : SockAddrIn, ∃ o2 o3 : Nat,
      (construct d toInetAddr base config).1.e131Addresses[x]? = some a ∧
      (o2 : Int) = (config.id + x) / 256 ∧ (o3 : Int) = (config.id + x) % 256 ∧
      a.sin_addr = mkInAddr 239 255 o2 o3 ∧
      octet a.sin_addr 0 = 239 ∧ octet a.sin_addr 1 = 255 ∧
      octet a.sin_addr 2 = o2 ∧ octet a.sin_addr 3 = o3 ∧
      a.sin_family = AF_INET ∧ a.sin_port = htons d.E131_DEST_PORT := by
  have hx2 : x < (effectiveUniverseCount config).toNat := by
    have : (construct d toInetAddr base config).1.universeCount =
      effectiveUniverseCount config := rfl
    omega
  obtain ⟨hf, hp⟩ := ctorResolve_family_port d toInetAddr base config
  have hd : (config.id + x).tdiv 256 = (config.id + x) / 256 :=
    Int.tdiv_eq_ediv hlo (by norm_num)
  have hm : (config.id + x).tmod 256 = (config.id + x) % 256 :=
    Int.tmod_eq_emod hlo (by norm_num)
  have haddr : inet_addr_dotted 239 255 ((config.id + x).tdiv 256) ((config.id + x).tmod 256) =
      mkInAddr 239 255 ((config.id + x) / 256).toNat ((config.id + x) % 256).toNat := by
    rw [hd, hm]
    unfold inet_addr_dotted
    rw [if_pos (by omega)]
    rfl
  obtain ⟨e0, e1, e2, e3⟩ := octet_mkInAddr 239 255 ((config.id + x) / 256).toNat
    ((config.id + x) % 256).toNat (by norm_num) (by norm_num) (by omega) (by omega)
  refine ⟨ctorAddress d base.type config.id (ctorResolve d toInetAddr base config).1.1 x,
    ((config.id + x) / 256).toNat, ((config.id + x) % 256).toNat, ?_, by omega, by omega,
    ?_, ?_, ?_, ?_, ?_, ?_, ?_⟩
  · rw [construct_addresses, if_pos hx2]
  all_goals simp only [ctorAddress, if_pos hmc, haddr]
  · exact e0
  · exact e1
  · exact e2
  · exact e3
  · exact hf
  · exact hp

/-- Instance of C4: scenario B (universe 5, three universes, multicast) gives
239.255.0.5, 239.255.0.6 and 239.255.0.7. -/
theorem C4_multicast_address_witness :
    sampleMulticastBase.type = stdDefs.E131_TYPE_MULTICAST ∧
    ∀ x : Nat, x < 3 →
      ∃ a : SockAddrIn,
        (construct stdDefs sampleResolver sampleMulticastBase
          sampleMulticastConfig).1.e131Addresses[x]? = some a ∧
        a.sin_addr = mkInAddr 239 255 0 (5 + x) ∧ a.sin_port = htons 5568 := by
  refine ⟨rfl, ?_⟩
  intro x hx
  have hu : (construct stdDefs sampleResolver sampleMulticastBase
      sampleMulticastConfig).1.universeCount = 3 := rfl
  have hid : sampleMulticastConfig.id = 5 := rfl
  obtain ⟨a, o2, o3, h1, h2, h3, h4, -, -, -, -, -, h5⟩ :=
    C4_multicast_address stdDefs sampleResolver sampleMulticastBase sampleMulticastConfig x rfl
      (by rw [hu]; omega) (by rw [hid]; omega) (by rw [hid]; omega)
  rw [hid] at h2 h3
  have e2 : o2 = 0 := by omega
  have e3 : o3 = 5 + x := by omega
  exact ⟨a, h1, by rw [h4, e2, e3], h5⟩

/-- **C8.** For every `startChannel`, `channelCount` and `universeCount` (exact
integer arithmetic), `GetRequiredChannelRange` returns
`min = startChannel - 1` and `max = startChannel + channelCount*universeCount - 1`,
so that `max - min = channelCount * universeCount`. -/
theorem C8_required_channel_range (o : E131OutputData) :
    (GetRequiredChannelRange o).1 = o.startChannel - 1 ∧
    (GetRequiredChannelRange o).2 = o.startChannel + o.channelCount * o.universeCount - 1 ∧
    (GetRequiredChannelRange o).2 - (GetRequiredChannelRange o).1 =
      o.channelCount * o.universeCount := by
  refine ⟨rfl, rfl, ?_⟩
  show o.startChannel + o.channelCount * o.universeCount - 1 - (o.startChannel - 1) = _
  ring

/-- Counterexample to C10 as stated: scenario A with `channelCount = -200`.
Segment 1 (the payload segment of universe 0) gets the length
`2^64 - 200 = 18446744073709551416`, the value of `-200` converted to `size_t`,
and not `channelCount`. -/
theorem C10_counterexample :
    negativeBase.channelCount = -200 ∧
    1 ≤ (construct stdDefs sampleResolver negativeBase sampleConfig).1.universeCount ∧
    (construct stdDefs sampleResolver negativeBase sampleConfig).1.e131Iovecs[2 * 0 + 1]? =
      some ⟨IovBase.null, 18446744073709551416⟩ ∧
    (construct stdDefs sampleResolver negativeBase sampleConfig).1.e131Iovecs[2 * 0 + 1]? ≠
      some ⟨IovBase.null, negativeBase.channelCount⟩ := by
  have h : (construct stdDefs sampleResolver negativeBase sampleConfig).1.e131Iovecs[2 * 0 + 1]? =
      some ⟨IovBase.null, 18446744073709551416⟩ := by
    rw [construct_iovecs, if_pos (by decide)]
    decide
  refine ⟨rfl, by decide, h, ?_⟩
  rw [h]
  decide

/-- **C10 (amended).** For well-formed constants and every configuration, with
`N` the effective universe count (`N ≥ 1`), the constructor produces exactly
`N` header buffers, `N` addresses and `2N` segments; for each `x < N`, segment
`2x` references header `x` with length `E131_HEADER_LENGTH`, and segment `2x+1`
has a null base and the length `channelCount` converted to `size_t`
(`channelCount mod 2^64`), which is `channelCount` whenever `channelCount ≥ 0`
(an `int` being below `2^64`). -/
theorem C10_vector_sizes (d : Defs) (hd : d.WellFormed)
    (toInetAddr : String → Bool → Nat × Bool) (base : UDPOutputData) (config : Config) :
    ∃ N : Nat, (N : Int) = (construct d toInetAddr base config).1.universeCount ∧ 1 ≤ N ∧
      (construct d toInetAddr base config).1.e131Headers.length = N ∧
      (construct d toInetAddr base config).1.e131Addresses.length = N ∧
      (construct d toInetAddr base config).1.e131Iovecs.length = 2 * N ∧
      ∀ x : Nat, x < N →
        (construct d toInetAddr base config).1.e131Iovecs[2 * x]? =
          some ⟨IovBase.header x, d.E131_HEADER_LENGTH⟩ ∧
        (construct d toInetAddr base config).1.e131Iovecs[2 * x + 1]? =
          some ⟨IovBase.null, toSizeT base.channelCount⟩ ∧
        (0 ≤ base.channelCount → base.channelCount < 18446744073709551616 →
          (construct d toInetAddr base config).1.e131Iovecs[2 * x + 1]? =
            some ⟨IovBase.null, base.channelCount⟩) := by
  have hpos := effectiveUniverseCount_pos config
  obtain ⟨l1, l2, l3⟩ := construct_lengths d toInetAddr base config
  refine ⟨(effectiveUniverseCount config).toNat, ?_, by omega, l1, l2, by rw [l3]; ring, ?_⟩
  · show _ = effectiveUniverseCount config
    omega
  · intro x hx
    rw [construct_iovecs, construct_iovecs, if_pos (by omega), if_pos (by omega)]
    have e1 : (2 * x) % 2 = 0 := by omega
    have e2 : (2 * x + 1) % 2 = 1 := by omega
    have e3 : (2 * x) / 2 = x := by omega
    refine ⟨?_, ?_, ?_⟩
    · simp [ctorIovec, e1, e3, toSizeT_headerLength d hd]
    · simp [ctorIovec, e2]
    · intro h0 h1
      simp [ctorIovec, e2, toSizeT_of_range _ h0 h1]

/-- **C7.** For an output whose `valid` flag or whose `active` flag is false,
`PrepareData` is a no-op for every channel buffer and batch: the object (with
every sequence byte, payload pointer and `skippedFrames`), the batch and the
state of the collaborator are returned unchanged and no call is made to the
collaborator. In particular a unicast output whose address does not resolve is
left invalid and inactive by the constructor, and `PrepareData` on it leaves
every batch unchanged. -/
theorem C7_inactive_noop {σ : Type} (d : Defs) (fs : FrameStore σ) :
    (∀ (o : E131OutputData) (store : σ) (cd : ChannelData) (msgs : UDPOutputMessages),
      o.valid = false ∨ o.active = false →
      (PrepareData d fs o store cd msgs).obj = o ∧
      (PrepareData d fs o store cd msgs).msgs = msgs ∧
      (PrepareData d fs o store cd msgs).store = store ∧
      (PrepareData d fs o store cd msgs).trace = []) ∧
    (∀ (toInetAddr : String → Bool → Nat × Bool) (base : UDPOutputData) (config : Config)
      (store : σ) (cd : ChannelData) (msgs : UDPOutputMessages),
      base.type ≠ d.E131_TYPE_MULTICAST →
      (toInetAddr (ctorIpAddress base config) base.valid).2 = false →
      (construct d toInetAddr base config).1.valid = false ∧
      (construct d toInetAddr base config).1.active = false ∧
      (PrepareData d fs (construct d toInetAddr base config).1 store cd msgs).msgs = msgs ∧
      (PrepareData d fs (construct d toInetAddr base config).1 store cd msgs).trace = []) := by
  have key : ∀ (o : E131OutputData) (store : σ) (cd : ChannelData) (msgs : UDPOutputMessages),
      o.valid = false ∨ o.active = false →
      PrepareData d fs o store cd msgs =
        { obj := o, msgs := msgs, store := store, trace := [] } := by
    intro o store cd msgs h
    have hc : (o.valid && o.active) = false := by
      rcases h with h | h <;> simp [h]
    simp only [PrepareData, hc, Bool.false_eq_true, if_false]
  refine ⟨?_, ?_⟩
  · intro o store cd msgs h
    refine ⟨?_, ?_, ?_, ?_⟩ <;> rw [key o store cd msgs h]
  · intro r base config store cd msgs hty hres
    have hv : (construct d r base config).1.valid = false := by
      simp only [construct, ctorResolve, if_neg hty, hres]
      split_ifs <;> rfl
    have ha : (construct d r base config).1.active = false := by
      simp only [construct, ctorResolve, if_neg hty, hres]
      cases hact : base.active <;> simp
    refine ⟨hv, ha, ?_, ?_⟩ <;> rw [key _ store cd msgs (Or.inl hv)]

/-- Instance of C7: scenario A with a resolver that fails. -/
theorem C7_inactive_noop_witness :
    (construct stdDefs failingResolver sampleBase sampleConfig).1.valid = false ∧
    (construct stdDefs failingResolver sampleBase sampleConfig).1.active = false ∧
    (PrepareData stdDefs alwaysChanged (construct stdDefs failingResolver sampleBase
      sampleConfig).1 () zeroChannels emptyBatch).msgs = emptyBatch ∧
    (PrepareData stdDefs alwaysChanged (construct stdDefs failingResolver sampleBase
      sampleConfig).1 () zeroChannels emptyBatch).trace = [] :=
  (C7_inactive_noop stdDefs alwaysChanged).2 failingResolver sampleBase sampleConfig ()
    zeroChannels emptyBatch (by decide) rfl

/-- Instance of C10 (amended): scenario A has two headers, two addresses and
four segments, the payload segments of length 512. -/
theorem C10_vector_sizes_witness :
    stdDefs.WellFormed ∧
    ∃ N : Nat, (N : Int) = sampleOutput.universeCount ∧ 1 ≤ N ∧
      sampleOutput.e131Headers.length = N ∧
      sampleOutput.e131Addresses.length = N ∧
      sampleOutput.e131Iovecs.length = 2 * N ∧
      ∀ x : Nat, x < N →
        sampleOutput.e131Iovecs[2 * x]? = some ⟨IovBase.header x, stdDefs.E131_HEADER_LENGTH⟩ ∧
        sampleOutput.e131Iovecs[2 * x + 1]? =
          some ⟨IovBase.null, toSizeT sampleBase.channelCount⟩ ∧
        (0 ≤ sampleBase.channelCount → sampleBase.channelCount < 18446744073709551616 →
          sampleOutput.e131Iovecs[2 * x + 1]? = some ⟨IovBase.null, sampleBase.channelCount⟩) :=
  ⟨stdDefs_wellFormed,
   C10_vector_sizes stdDefs stdDefs_wellFormed sampleResolver sampleBase sampleConfig⟩

/-! ## The batch -/

/-- The key under which a constructed output batches: the multicast sentinel,
or the resolved unicast address. -/
theorem batchKey_constructed (d : Defs) (toInetAddr : String → Bool → Nat × Bool)
    (base : UDPOutputData) (config : Config) (o : E131OutputData)
    (hty : o.type = base.type)
    (haddr : o.e131Addresses = (construct d toInetAddr base config).1.e131Addresses)
    (x : Nat) (hx : x < (effectiveUniverseCount config).toNat) :
    batchKey d o x =
      if base.type = d.E131_TYPE_MULTICAST then d.MULTICAST_MESSAGES_KEY
      else (toInetAddr (ctorIpAddress base config) base.valid).1 := by
  unfold batchKey
  rw [hty]
  by_cases hm : base.type = d.E131_TYPE_MULTICAST
  · rw [if_pos hm, if_pos hm]
  · rw [if_neg hm, if_neg hm, haddr, List.getD_eq_getElem?_getD, construct_addresses,
      if_pos hx]
    simp only [Option.getD_some, ctorAddress, if_neg hm, ctorResolve]
    split_ifs <;> rfl

/-- **C6.** For one call of `PrepareData` on a valid, active output that has
the type, universe count and addresses given by the constructor: there is one
query answer per universe; under the single key `K` (the multicast key for a
multicast output, the resolved unicast address otherwise) the batch afterwards
is the batch before followed by one entry per universe whose query answered
true, in increasing universe order; under every other key the batch is
unchanged. -/
theorem C6_batch_entries {σ : Type} (d : Defs) (fs : FrameStore σ)
    (toInetAddr : String → Bool → Nat × Bool) (base : UDPOutputData) (config : Config)
    (o : E131OutputData) (store : σ) (cd : ChannelData) (msgs : UDPOutputMessages)
    (hvalid : o.valid = true) (hactive : o.active = true)
    (hty : o.type = base.type)
    (hcount : o.universeCount = (construct d toInetAddr base config).1.universeCount)
    (haddr : o.e131Addresses = (construct d toInetAddr base config).1.e131Addresses) :
    (queryResults (PrepareData d fs o store cd msgs).trace).length = o.universeCount.toNat ∧
    (PrepareData d fs o store cd msgs).msgs
        (if base.type = d.E131_TYPE_MULTICAST then d.MULTICAST_MESSAGES_KEY
          else (toInetAddr (ctorIpAddress base config) base.valid).1) =
      msgs (if base.type = d.E131_TYPE_MULTICAST then d.MULTICAST_MESSAGES_KEY
          else (toInetAddr (ctorIpAddress base config) base.valid).1) ++
        ((List.range o.universeCount.toNat).filter
          (fun x => (queryResults (PrepareData d fs o store cd msgs).trace).getD x false)).map
          (mkMsg d o) ∧
    ∀ k : Nat,
      k ≠ (if base.type = d.E131_TYPE_MULTICAST then d.MULTICAST_MESSAGES_KEY
          else (toInetAddr (ctorIpAddress base config) base.valid).1) →
      (PrepareData d fs o store cd msgs).msgs k = msgs k := by
  obtain ⟨-, a2, a3, -, -⟩ := PrepareData_active d fs o store cd msgs hvalid hactive
  obtain ⟨l1, -, -, -, -, -, l7, -, -⟩ :=
    prepareLoop_spec d fs o cd store msgs o.universeCount.toNat
  have hn : o.universeCount.toNat = (effectiveUniverseCount config).toNat := by
    rw [hcount]; rfl
  have hkey : ∀ x ∈ List.range o.universeCount.toNat, batchKey d o x =
      if base.type = d.E131_TYPE_MULTICAST then d.MULTICAST_MESSAGES_KEY
      else (toInetAddr (ctorIpAddress base config) base.valid).1 := by
    intro x hx
    exact batchKey_constructed d toInetAddr base config o hty haddr x
      (by rw [← hn]; exact List.mem_range.mp hx)

  refine ⟨by rw [a3, l1], ?_, ?_⟩
  · rw [a2, l7, a3]
    congr 2
    apply List.filter_congr
    intro x hx
    rw [hkey x hx]
    simp
  · intro k hk
    rw [a2, l7]
    have : (List.range o.universeCount.toNat).filter (fun x =>
        (queryResults (prepareLoop d fs o cd store msgs o.universeCount.toNat).trace).getD x false
          && decide (batchKey d o x = k)) = [] := by
      rw [List.filter_eq_nil_iff]
      intro x hx
      rw [hkey x hx]
      have : ¬ (if base.type = d.E131_TYPE_MULTICAST then d.MULTICAST_MESSAGES_KEY
          else (toInetAddr (ctorIpAddress base config) base.valid).1) = k := fun e => hk e.symm
      simp [this]
    rw [this]
    simp

/-- Instance of C6: scenario A (unicast 10.0.0.5, two universes) with both
universes changed yields two entries, for universes 0 and 1 in this order,
under the key of 10.0.0.5 and none under any other key. -/
theorem C6_batch_entries_witness :
    sampleOutput.valid = true ∧ sampleOutput.active = true ∧
    (PrepareData stdDefs alwaysChanged sampleOutput () zeroChannels emptyBatch).msgs
      (mkInAddr 10 0 0 5) = [mkMsg stdDefs sampleOutput 0, mkMsg stdDefs sampleOutput 1] ∧
    ∀ k : Nat, k ≠ mkInAddr 10 0 0 5 →
      (PrepareData stdDefs alwaysChanged sampleOutput () zeroChannels emptyBatch).msgs k = [] :=
  ⟨rfl, rfl,
   (C6_batch_entries stdDefs alwaysChanged sampleResolver sampleBase sampleConfig sampleOutput ()
      zeroChannels emptyBatch rfl rfl rfl rfl rfl).2.1,
   (C6_batch_entries stdDefs alwaysChanged sampleResolver sampleBase sampleConfig sampleOutput ()
      zeroChannels emptyBatch rfl rfl rfl rfl rfl).2.2⟩
/-! ## Channel ranges -/

theorem universeSlice_cover (o : E131OutputData) (hcc : 0 ≤ o.channelCount) (c : Int) :
    ((GetRequiredChannelRange o).1 ≤ c ∧ c < (GetRequiredChannelRange o).2) ↔
      ∃ x : Nat, x < o.universeCount.toNat ∧
        (universeSlice o x).1 ≤ c ∧ c < (universeSlice o x).2 := by
  simp only [GetRequiredChannelRange, universeSlice]
  constructor
  · rintro ⟨h1, h2⟩
    have hpos : 0 < o.channelCount := by
      rcases eq_or_lt_of_le hcc with h | h
      · rw [← h] at h2; simp at h2; omega
      · exact h
    have huc : 0 < o.universeCount := by
      by_contra hc
      have : o.channelCount * o.universeCount ≤ 0 :=
        mul_nonpos_of_nonneg_of_nonpos hcc (by omega)
      omega
    have hc0 : 0 ≤ c - (o.startChannel - 1) := by omega
    have hlt : c - (o.startChannel - 1) < o.universeCount * o.channelCount := by
      have : o.universeCount * o.channelCount = o.channelCount * o.universeCount := by ring
      omega
    have hq0 : 0 ≤ (c - (o.startChannel - 1)) / o.channelCount := Int.ediv_nonneg hc0 hcc
    have hq1 : (c - (o.startChannel - 1)) / o.channelCount < o.universeCount :=
      Int.ediv_lt_of_lt_mul hpos hlt
    have hm1 := Int.ediv_mul_le (c - (o.startChannel - 1)) (ne_of_gt hpos)
    have hm2 := Int.lt_ediv_add_one_mul_self (c - (o.startChannel - 1)) hpos
    refine ⟨((c - (o.startChannel - 1)) / o.channelCount).toNat, by omega, ?_, ?_⟩
    · rw [Int.toNat_of_nonneg hq0]; omega
    · rw [Int.toNat_of_nonneg hq0]; omega
  · rintro ⟨x, hx, h1, h2⟩
    have hx0 : (0 : Int) ≤ (x : Int) * o.channelCount := by positivity
    have hx1 : ((x : Int) + 1) * o.channelCount ≤ o.universeCount * o.channelCount :=
      mul_le_mul_of_nonneg_right (by omega) hcc
    have : o.universeCount * o.channelCount = o.channelCount * o.universeCount := by ring
    constructor <;> omega

/-- The payload segments left by the constructor have length `channelCount`
when `channelCount` is in `[0, 2^64)`. -/
theorem construct_payload_segments (d : Defs) (r : String → Bool → Nat × Bool)
    (base : UDPOutputData) (config : Config) (x : Nat)
    (hx : x < (effectiveUniverseCount config).toNat)
    (h0 : 0 ≤ base.channelCount) (h1 : base.channelCount < 18446744073709551616) :
    ∃ v : Iovec, (construct d r base config).1.e131Iovecs[x * 2 + 1]? = some v ∧
      v.iov_len = base.channelCount := by
  have e : (x * 2 + 1) % 2 = 1 := by omega
  refine ⟨ctorIovec d base.channelCount (x * 2 + 1), ?_, ?_⟩
  · rw [construct_iovecs, if_pos (by omega)]
  · simp [ctorIovec, e, toSizeT_of_range _ h0 h1]

/-- **C9.** For one call of `PrepareData` on a valid, active output with
`startChannel ≥ 1` and `channelCount ≥ 0` whose payload segments have length
`channelCount` (as the constructor leaves them), with
`[min, max)` the range of `GetRequiredChannelRange`: the intervals of channel
indices passed to the collaborator are, in order, the slices
`[startChannel-1 + x*channelCount, startChannel-1 + (x+1)*channelCount)` of the
universes `x = 0 .. universeCount-1` (the queries) followed, when a universe was
emitted, by `[min, max)` (the save); the payload segment of an emitted universe
`x` is bound to the start of the same slice and keeps the length
`channelCount`; `min ≥ 0`; every slice has length `channelCount` and lies in
`[min, max)`; slices of different universes are disjoint; and the slices
together cover exactly `[min, max)`. -/
theorem C9_channel_range {σ : Type} (d : Defs) (fs : FrameStore σ) (o : E131OutputData)
    (store : σ) (cd : ChannelData) (msgs : UDPOutputMessages)
    (hvalid : o.valid = true) (hactive : o.active = true)
    (hsc : 1 ≤ o.startChannel) (hcc : 0 ≤ o.channelCount)
    (hseg : ∀ x : Nat, x < o.universeCount.toNat →
      ∃ v : Iovec, o.e131Iovecs[x * 2 + 1]? = some v ∧ v.iov_len = o.channelCount) :
    (PrepareData d fs o store cd msgs).trace.map eventSlice =
      (List.range o.universeCount.toNat).map (universeSlice o) ++
        (if true ∈ queryResults (PrepareData d fs o store cd msgs).trace then
          [GetRequiredChannelRange o] else []) ∧
    (∀ x : Nat, x < o.universeCount.toNat →
      (queryResults (PrepareData d fs o store cd msgs).trace).getD x false = true →
      ∃ v : Iovec, (PrepareData d fs o store cd msgs).obj.e131Iovecs[x * 2 + 1]? = some v ∧
        v.iov_base = IovBase.channel (universeSlice o x).1 ∧
        v.iov_len = o.channelCount) ∧
    0 ≤ (GetRequiredChannelRange o).1 ∧
    (∀ x : Nat, x < o.universeCount.toNat →
      (universeSlice o x).2 - (universeSlice o x).1 = o.channelCount ∧
      (GetRequiredChannelRange o).1 ≤ (universeSlice o x).1 ∧
      (universeSlice o x).2 ≤ (GetRequiredChannelRange o).2) ∧
    (∀ x y : Nat, x < y → y < o.universeCount.toNat →
      (universeSlice o x).2 ≤ (universeSlice o y).1) ∧
    (∀ c : Int, ((GetRequiredChannelRange o).1 ≤ c ∧ c < (GetRequiredChannelRange o).2) ↔
      ∃ x : Nat, x < o.universeCount.toNat ∧
        (universeSlice o x).1 ≤ c ∧ c < (universeSlice o x).2) := by
  obtain ⟨a1, -, a3, a4, -⟩ := PrepareData_active d fs o store cd msgs hvalid hactive
  obtain ⟨l1, l2, l3, -, -, l6, -, -, l9⟩ :=
    prepareLoop_spec d fs o cd store msgs o.universeCount.toNat
  refine ⟨?_, ?_, ?_, ?_, ?_, universeSlice_cover o hcc⟩
  · rw [a3, a4]
    have hq : (prepareLoop d fs o cd store msgs o.universeCount.toNat).trace.map eventSlice =
        (List.range o.universeCount.toNat).map (universeSlice o) := by
      rw [l2, List.map_map]
      apply List.map_congr_left
      intro x _
      simp only [Function.comp, eventSlice, universeSlice]
      refine Prod.ext rfl ?_
      simp only; ring
    by_cases hall : (prepareLoop d fs o cd store msgs o.universeCount.toNat).allSkipped = true
    · have hnot := l6.mp hall
      rw [if_pos hall, if_neg hnot, hq]; simp
    · have hmem : true ∈ queryResults
          (prepareLoop d fs o cd store msgs o.universeCount.toNat).trace := by
        by_contra hc; exact hall (l6.mpr hc)
      have hn : (o.universeCount.toNat : Int) = o.universeCount := by
        have hlen := List.length_pos_of_mem hmem
        rw [l1] at hlen
        omega
      rw [if_neg hall, if_pos hmem, List.map_append, hq]
      congr 1
      simp only [List.map_cons, List.map_nil, eventSlice, GetRequiredChannelRange, l3, hn]
      congr 1
      refine Prod.ext rfl ?_
      simp only; ring
  · intro x hx hq
    obtain ⟨v, hv1, hv2⟩ := hseg x hx
    rw [a3] at hq
    rw [a1]
    show ∃ v, (prepareLoop d fs o cd store msgs o.universeCount.toNat).e131Iovecs[x * 2 + 1]? =
      some v ∧ _
    have e1 : (x * 2 + 1) % 2 = 1 := by omega
    have e2 : (x * 2 + 1) / 2 = x := by omega
    rw [l9 (x * 2 + 1), e2, if_pos ⟨e1, hx, hq⟩, hv1]
    exact ⟨_, rfl, rfl, hv2⟩
  · show 0 ≤ o.startChannel - 1
    omega
  · intro x hx
    have hx0 : (0 : Int) ≤ (x : Int) * o.channelCount := by positivity
    have hx1 : ((x : Int) + 1) * o.channelCount ≤ o.universeCount * o.channelCount :=
      mul_le_mul_of_nonneg_right (by omega) hcc
    have : o.universeCount * o.channelCount = o.channelCount * o.universeCount := by ring
    simp only [universeSlice, GetRequiredChannelRange]
    refine ⟨by ring, by omega, by omega⟩
  · intro x y hxy _
    have h1 : ((x : Int) + 1) * o.channelCount ≤ (y : Int) * o.channelCount :=
      mul_le_mul_of_nonneg_right (by omega) hcc
    simp only [universeSlice]
    omega

/-- Instance of C9: scenario A (start channel 1, two universes of 512 channels)
with both universes changed: the queries name `[0,512)` and `[512,1024)`, the
save names `[0,1024)`. -/
theorem C9_channel_range_witness :
    sampleOutput.valid = true ∧ sampleOutput.active = true ∧
    1 ≤ sampleOutput.startChannel ∧ 0 ≤ sampleOutput.channelCount ∧
    GetRequiredChannelRange sampleOutput = (0, 1024) ∧
    (PrepareData stdDefs alwaysChanged sampleOutput () zeroChannels emptyBatch).trace.map
      eventSlice = [(0, 512), (512, 1024), (0, 1024)] :=
  ⟨rfl, rfl, by decide, by decide, rfl,
   (C9_channel_range stdDefs alwaysChanged sampleOutput () zeroChannels emptyBatch rfl rfl
      (by decide) (by decide)
      (fun x hx => construct_payload_segments stdDefs sampleResolver sampleBase sampleConfig
        x hx (by decide) (by decide))).1⟩

/-! ## Two ticks with the same channel data -/

/-- With a collaborator whose query leaves its state alone, the state stays
the initial one during the loop and the answer for universe `x` is the answer
of the query on the initial state. -/
theorem prepareLoop_readonly {σ : Type} (d : Defs) (fs : FrameStore σ)
    (hro : ∀ st k cd a b c, (fs.NeedToOutputFrame st k cd a b c).2 = st)
    (o : E131OutputData) (cd : ChannelData) (store : σ) (msgs : UDPOutputMessages) (m : Nat) :
    (prepareLoop d fs o cd store msgs m).store = store ∧
    ∀ x : Nat, x < m →
      (queryResults (prepareLoop d fs o cd store msgs m).trace).getD x false =
        (fs.NeedToOutputFrame store o.skippedFrames cd (o.startChannel - 1)
          (x * o.channelCount) o.channelCount).1 := by
  induction m with
  | zero =>
    exact ⟨rfl, fun x hx => absurd hx (Nat.not_lt_zero x)⟩
  | succ m ih =>
    obtain ⟨ih1, ih2⟩ := ih
    obtain ⟨l1, -, l3, -⟩ := prepareLoop_spec d fs o cd store msgs m
    have hstep : prepareLoop d fs o cd store msgs (m + 1) =
        prepareBody d fs o cd (prepareLoop d fs o cd store msgs m) m := by
      simp [prepareLoop, List.range_succ, List.foldl_append]
    rw [hstep]
    generalize prepareLoop d fs o cd store msgs m = s at ih1 ih2 l1 l3
    have hst : (prepareBody d fs o cd s m).store = store := by
      simp only [prepareBody]
      split_ifs <;> simp only [hro, ih1]
    have htr : (prepareBody d fs o cd s m).trace = s.trace ++
        [Event.query (o.startChannel - 1) s.start o.channelCount
          (fs.NeedToOutputFrame s.store o.skippedFrames cd (o.startChannel - 1) s.start
            o.channelCount).1] := by
      simp only [prepareBody]; split_ifs <;> rfl
    refine ⟨hst, ?_⟩
    intro x hx
    rw [htr, queryResults_append_query, getD_append_one, l1]
    by_cases hxm : x < m
    · rw [if_pos hxm]; exact ih2 x hxm
    · have hxe : x = m := by omega
      rw [if_neg hxm, if_pos hxe, ih1, l3, hxe]

/-- A part of a mapped range, cut out by `drop` and `take`. -/
theorem drop_take_map_range (f : Nat → Nat) (N k c : Nat) (h : k + c ≤ N) :
    (((List.range N).map f).drop k).take c = (List.range c).map (fun i => f (k + i)) := by
  apply List.ext_getElem?
  intro i
  by_cases hi : i < c
  · have h1 : k + i < N := by omega
    simp [List.getElem?_take, hi, List.getElem?_drop, List.getElem?_map, List.getElem?_range, h1]
  · have hnone : (List.range c)[i]? = none := List.getElem?_eq_none (by simp; omega)
    simp [List.getElem?_take, hi, hnone]

/-- After the whole range of an output was saved, the query of the
specification's collaborator answers false for each of its universes. -/
theorem specFrameStore_after_save (cd : ChannelData) (sc cc : Int) (n x : Nat) (k : Int)
    (hx : x < n) :
    (specFrameStore.NeedToOutputFrame (some (slice cd sc (n * cc))) k cd sc (x * cc) cc).1 =
      false := by
  simp only [specFrameStore, decide_eq_false_iff_not, not_not]
  by_cases hcc : 0 < cc
  · have hxk : (((x : Int) * cc).toNat) + cc.toNat ≤ ((n : Int) * cc).toNat := by
      have h1 : ((x : Int) + 1) * cc ≤ (n : Int) * cc :=
        mul_le_mul_of_nonneg_right (by omega) (le_of_lt hcc)
      have h0 : (0 : Int) ≤ (x : Int) * cc := by positivity
      have h2 : ((x : Int) + 1) * cc = (x : Int) * cc + cc := by ring
      omega
    unfold slice
    rw [drop_take_map_range _ _ _ _ hxk]
    apply List.map_congr_left
    intro i _
    have h0 : (0 : Int) ≤ (x : Int) * cc := by positivity
    have : (((((x : Int) * cc).toNat + i : Nat)) : Int) = (x : Int) * cc + i := by
      push_cast; rw [Int.toNat_of_nonneg h0]
    rw [this]; ring_nf
  · have hz : cc.toNat = 0 := by omega
    simp [slice, hz]

/-- An answer `true` read from a list of answers is an element of the list. -/
theorem getD_true_mem (rs : List Bool) (x : Nat) (h : rs.getD x false = true) : true ∈ rs := by
  rw [List.getD_eq_getElem?_getD] at h
  cases hx : rs[x]? with
  | none => rw [hx] at h; simp at h
  | some b =>
    rw [hx] at h
    have hb : b = true := by simpa using h
    subst hb
    obtain ⟨hlt, hget⟩ := List.getElem?_eq_some.mp hx
    rw [← hget]
    exact List.getElem_mem _

/-- A non-empty list of answers that are all false. -/
theorem all_false_of_getD (rs : List Bool) (n : Nat) (hlen : rs.length = n) (hn : 1 ≤ n)
    (h : ∀ x, x < n → rs.getD x false = false) : false ∈ rs ∧ true ∉ rs := by
  constructor
  · have h0 := h 0 (by omega)
    rw [List.getD_eq_getElem?_getD, List.getElem?_eq_getElem (by omega)] at h0
    have : rs[0] = false := by simpa using h0
    rw [← this]
    exact List.getElem_mem _
  · intro hmem
    obtain ⟨i, hi, hget⟩ := List.getElem_of_mem hmem
    have hx := h i (by omega)
    rw [List.getD_eq_getElem?_getD, List.getElem?_eq_getElem hi] at hx
    simp [hget] at hx

/-- **C5.** With the change-detection collaborator of the specification
(`specFrameStore`), for every valid, active output with at least one universe,
every starting snapshot state, every channel buffer and every pair of batches:
when `PrepareData` is called twice in a row with the same channel data (the
second call on the object and the snapshot state left by the first), the second
call leaves its batch unchanged, increases `skippedFrames` by exactly 1, leaves
every header (hence every sequence byte) unchanged, makes no save, leaves the
snapshot state unchanged, and every one of its queries answers false. -/
theorem C5_identical_second_tick (d : Defs) (o : E131OutputData) (store : Option (List Nat))
    (cd : ChannelData) (msgs msgs2 : UDPOutputMessages)
    (hvalid : o.valid = true) (hactive : o.active = true) (huc : 1 ≤ o.universeCount)
    (r1 r2 : PrepResult (Option (List Nat)))
    (h1 : r1 = PrepareData d specFrameStore o store cd msgs)
    (h2 : r2 = PrepareData d specFrameStore r1.obj r1.store cd msgs2) :
    r2.msgs = msgs2 ∧
    r2.obj.skippedFrames = r1.obj.skippedFrames + 1 ∧
    r2.obj.e131Headers = r1.obj.e131Headers ∧
    (∀ e ∈ r2.trace, ∀ index len : Int, e ≠ Event.save index len) ∧
    r2.store = r1.store ∧
    (∀ x : Nat, (x : Int) < o.universeCount → (queryResults r2.trace)[x]? = some false) := by
  have hro : ∀ (st : Option (List Nat)) (k : Int) (cd : ChannelData) (a b c : Int),
      (specFrameStore.NeedToOutputFrame st k cd a b c).2 = st := fun _ _ _ _ _ _ => rfl
  have hsk : ∀ (st : Option (List Nat)) (k k2 : Int) (a b c : Int),
      (specFrameStore.NeedToOutputFrame st k cd a b c).1 =
        (specFrameStore.NeedToOutputFrame st k2 cd a b c).1 := fun _ _ _ _ _ _ => rfl
  -- the first call
  obtain ⟨a1, -, -, -, a5⟩ := PrepareData_active d specFrameStore o store cd msgs hvalid hactive
  obtain ⟨-, -, l3, -, -, l6, -⟩ :=
    prepareLoop_spec d specFrameStore o cd store msgs o.universeCount.toNat
  obtain ⟨ro1, ro2⟩ :=
    prepareLoop_readonly d specFrameStore hro o cd store msgs o.universeCount.toNat
  rw [← h1] at a1 a5
  have ev : r1.obj.valid = true := by rw [a1]; exact hvalid
  have ea : r1.obj.active = true := by rw [a1]; exact hactive
  have esc : r1.obj.startChannel = o.startChannel := by rw [a1]
  have ecc : r1.obj.channelCount = o.channelCount := by rw [a1]
  have euc : r1.obj.universeCount = o.universeCount := by rw [a1]
  -- the second call
  obtain ⟨b1, b2, b3, b4, b5⟩ :=
    PrepareData_active d specFrameStore r1.obj r1.store cd msgs2 ev ea
  obtain ⟨m1, m2, -, -, m5, m6, m7, m8, -⟩ :=
    prepareLoop_spec d specFrameStore r1.obj cd r1.store msgs2 r1.obj.universeCount.toNat
  obtain ⟨-, rq2⟩ :=
    prepareLoop_readonly d specFrameStore hro r1.obj cd r1.store msgs2
      r1.obj.universeCount.toNat
  rw [← h2] at b1 b2 b3 b4 b5
  -- every query of the second call answers false
  have hfalse : ∀ x : Nat, x < r1.obj.universeCount.toNat →
      (queryResults (prepareLoop d specFrameStore r1.obj cd r1.store msgs2
        r1.obj.universeCount.toNat).trace).getD x false = false := by
    intro x hx
    rw [rq2 x hx, esc, ecc]
    have hx' : x < o.universeCount.toNat := by rw [← euc]; exact hx
    by_cases hall : (prepareLoop d specFrameStore o cd store msgs
        o.universeCount.toNat).allSkipped = true
    · rw [a5, if_pos hall, ro1, hsk store _ o.skippedFrames, ← ro2 x hx']
      by_contra hc
      exact (l6.mp hall) (getD_true_mem _ x (by simpa using hc))
    · rw [a5, if_neg hall, l3]
      exact specFrameStore_after_save cd (o.startChannel - 1) o.channelCount _ x _ hx'
  have hn1 : 1 ≤ r1.obj.universeCount.toNat := by rw [euc]; omega
  obtain ⟨hmemF, hmemT⟩ := all_false_of_getD _ _ m1 hn1 hfalse
  have hskip : (prepareLoop d specFrameStore r1.obj cd r1.store msgs2
      r1.obj.universeCount.toNat).skipped = true := m5.mpr hmemF
  have hallsk : (prepareLoop d specFrameStore r1.obj cd r1.store msgs2
      r1.obj.universeCount.toNat).allSkipped = true := m6.mpr hmemT
  refine ⟨?_, ?_, ?_, ?_, ?_, ?_⟩
  · rw [b2]
    funext k
    rw [m7 k]
    have : (List.range r1.obj.universeCount.toNat).filter (fun x =>
        (queryResults (prepareLoop d specFrameStore r1.obj cd r1.store msgs2
          r1.obj.universeCount.toNat).trace).getD x false
          && decide (batchKey d r1.obj x = k)) = [] := by
      rw [List.filter_eq_nil_iff]
      intro x hx
      rw [hfalse x (List.mem_range.mp hx)]
      simp
    rw [this]; simp
  · rw [b1]
    show (if (prepareLoop d specFrameStore r1.obj cd r1.store msgs2
      r1.obj.universeCount.toNat).skipped = true then r1.obj.skippedFrames + 1 else 0) = _
    rw [if_pos hskip]
  · rw [b1]
    show (prepareLoop d specFrameStore r1.obj cd r1.store msgs2
      r1.obj.universeCount.toNat).e131Headers = _
    apply List.ext_getElem?
    intro x
    rw [m8 x]
    by_cases hx : x < r1.obj.universeCount.toNat
    · rw [if_neg]
      rw [hfalse x hx]; simp
    · rw [if_neg (fun hc => hx hc.1)]
  · intro e he index len heq
    rw [b4, if_pos hallsk, m2] at he
    obtain ⟨x, -, hxe⟩ := List.mem_map.mp he
    rw [heq] at hxe
    exact Event.noConfusion hxe
  · rw [b5, if_pos hallsk]
    exact (prepareLoop_readonly d specFrameStore hro r1.obj cd r1.store msgs2
      r1.obj.universeCount.toNat).1
  · intro x hx
    have hx' : x < r1.obj.universeCount.toNat := by rw [euc]; omega
    have hlen : x < (queryResults r2.trace).length := by rw [b3, m1]; exact hx'
    have := hfalse x hx'
    rw [← b3, List.getD_eq_getElem?_getD, List.getElem?_eq_getElem hlen] at this
    rw [List.getElem?_eq_getElem hlen]
    simpa using this

/-- Instance of C5: scenario A, two ticks on the all-zero channel buffer,
starting without snapshot. -/
theorem C5_identical_second_tick_witness :
    sampleOutput.valid = true ∧ sampleOutput.active = true ∧ 1 ≤ sampleOutput.universeCount ∧
    (PrepareData stdDefs specFrameStore
      (PrepareData stdDefs specFrameStore sampleOutput none zeroChannels emptyBatch).obj
      (PrepareData stdDefs specFrameStore sampleOutput none zeroChannels emptyBatch).store
      zeroChannels emptyBatch).msgs = emptyBatch ∧
    (PrepareData stdDefs specFrameStore
      (PrepareData stdDefs specFrameStore sampleOutput none zeroChannels emptyBatch).obj
      (PrepareData stdDefs specFrameStore sampleOutput none zeroChannels emptyBatch).store
      zeroChannels emptyBatch).obj.skippedFrames =
      (PrepareData stdDefs specFrameStore sampleOutput none zeroChannels
        emptyBatch).obj.skippedFrames + 1 :=
  ⟨rfl, rfl, by decide,
   (C5_identical_second_tick stdDefs sampleOutput none zeroChannels emptyBatch emptyBatch
      rfl rfl (by decide) _ _ rfl rfl).1,
   (C5_identical_second_tick stdDefs sampleOutput none zeroChannels emptyBatch emptyBatch
      rfl rfl (by decide) _ _ rfl rfl).2.1⟩

/-! ## Universe count, universe bytes and multicast groups -/

/-- The multicast address printed and parsed for a universe in `[0,65535]`. -/
theorem inet_addr_multicast (u : Int) (h0 : 0 ≤ u) (h1 : u ≤ 65535) :
    inet_addr_dotted 239 255 (u.tdiv 256) (u.tmod 256) =
      mkInAddr 239 255 (u / 256).toNat (u % 256).toNat := by
  rw [Int.tdiv_eq_ediv h0 (by norm_num), Int.tmod_eq_emod h0 (by norm_num)]
  unfold inet_addr_dotted
  rw [if_pos (by omega)]
  rfl

/-- The constructor reads `universeCount` of the configuration only to set the
universe count: the address, the flags and the warnings do not depend on it. -/
theorem ctorResolve_universeCount_irrelevant (d : Defs) (r : String → Bool → Nat × Bool)
    (base : UDPOutputData) (config : Config) (c : Option Int) :
    ctorResolve d r base { config with universeCount := c } = ctorResolve d r base config :=
  rfl

/-- **C11.** For every configuration the universe count of the constructed
output is at least 1: it is 1 when the configuration has no `universeCount`
member, the configured value `c` when `c ≥ 1`, and 1 when `c < 1`, that is
`max 1 c`. The configured count has no other effect on the outcome of the
constructor: with any other count (or none) the flags `valid` and `active` and
the warnings reported are the same, so a value below 1 is not an error and
does not disable the output. -/
theorem C11_universe_count_floor (d : Defs) (toInetAddr : String → Bool → Nat × Bool)
    (base : UDPOutputData) (config : Config) :
    1 ≤ (construct d toInetAddr base config).1.universeCount ∧
    (config.universeCount = none →
      (construct d toInetAddr base config).1.universeCount = 1) ∧
    (∀ c : Int, config.universeCount = some c →
      (construct d toInetAddr base config).1.universeCount = max 1 c ∧
      (1 ≤ c → (construct d toInetAddr base config).1.universeCount = c) ∧
      (c < 1 → (construct d toInetAddr base config).1.universeCount = 1)) ∧
    (∀ c : Option Int,
      (construct d toInetAddr base { config with universeCount := c }).1.valid =
        (construct d toInetAddr base config).1.valid ∧
      (construct d toInetAddr base { config with universeCount := c }).1.active =
        (construct d toInetAddr base config).1.active ∧
      (construct d toInetAddr base { config with universeCount := c }).2 =
        (construct d toInetAddr base config).2) := by
  have hu : (construct d toInetAddr base config).1.universeCount =
      effectiveUniverseCount config := rfl
  refine ⟨?_, ?_, ?_, ?_⟩
  · rw [hu]; exact effectiveUniverseCount_pos config
  · intro hnone
    rw [hu]; simp [effectiveUniverseCount, hnone]
  · intro c hc
    rw [hu]
    have he : effectiveUniverseCount config = if c < 1 then 1 else c := by
      simp [effectiveUniverseCount, hc]
    rw [he]
    refine ⟨?_, ?_, ?_⟩
    · split_ifs with h
      · rw [max_eq_left (by omega)]
      · rw [max_eq_right (by omega)]
    · intro h; rw [if_neg (by omega)]
    · intro h; rw [if_pos h]
  · intro c
    exact ⟨rfl, rfl, rfl⟩

/-- Instance of C11: a configured count of 0 gives one universe and leaves the
output valid and active, without warning. -/
theorem C11_universe_count_floor_witness :
    (construct stdDefs sampleResolver sampleBase
      { sampleConfig with universeCount := some 0 }).1.universeCount = 1 ∧
    (construct stdDefs sampleResolver sampleBase
      { sampleConfig with universeCount := some 0 }).1.valid = true ∧
    (construct stdDefs sampleResolver sampleBase
      { sampleConfig with universeCount := some 0 }).1.active = true ∧
    (construct stdDefs sampleResolver sampleBase
      { sampleConfig with universeCount := some 0 }).2 = [] :=
  ⟨((C11_universe_count_floor stdDefs sampleResolver sampleBase
      { sampleConfig with universeCount := some 0 }).2.2.1 0 rfl).2.2 (by decide),
   rfl, rfl, rfl⟩

/-- **C12.** For a well-formed set of constants, every base universe id
`U = config.id` and every index `x` below the universe count with `U + x` in
`[0,65535]`, the two header bytes at `E131_UNIVERSE_INDEX` and
`E131_UNIVERSE_INDEX+1` of universe `x` decode, big-endian, to `U + x`. -/
theorem C12_universe_bytes (d : Defs) (hd : d.WellFormed)
    (toInetAddr : String → Bool → Nat × Bool) (base : UDPOutputData) (config : Config) (x : Nat)
    (hx : (x : Int) < (construct d toInetAddr base config).1.universeCount)
    (hlo : 0 ≤ config.id + x) (hhi : config.id + x ≤ 65535) :
    ∃ hdr : List Nat, ∃ b0 b1 : Nat,
      (construct d toInetAddr base config).1.e131Headers[x]? = some hdr ∧
      hdr[d.E131_UNIVERSE_INDEX]? = some b0 ∧ hdr[d.E131_UNIVERSE_INDEX + 1]? = some b1 ∧
      b0 < 256 ∧ b1 < 256 ∧
      (256 * b0 + b1 : Int) = config.id + x := by
  have hx2 : x < (effectiveUniverseCount config).toNat := by
    have : (construct d toInetAddr base config).1.universeCount =
      effectiveUniverseCount config := rfl
    omega
  obtain ⟨-, f1, f2, -⟩ :=
    buildHeader_fields d hd config.priority base.channelCount (config.id + x)
  refine ⟨buildHeader d config.priority base.channelCount (config.id + x), _, _, ?_, f1, f2,
    ?_, ?_, ?_⟩
  · rw [construct_headers, if_pos hx2]
  · unfold toU8; omega
  · unfold toU8; omega
  · rw [Int.tdiv_eq_ediv hlo (by norm_num), Int.tmod_eq_emod hlo (by norm_num)]
    unfold toU8; omega

/-- Instance of C12: scenario A, universe index 1 carries universe id 2. -/
theorem C12_universe_bytes_witness :
    ∃ hdr : List Nat, ∃ b0 b1 : Nat,
      sampleOutput.e131Headers[1]? = some hdr ∧
      hdr[stdDefs.E131_UNIVERSE_INDEX]? = some b0 ∧
      hdr[stdDefs.E131_UNIVERSE_INDEX + 1]? = some b1 ∧
      b0 < 256 ∧ b1 < 256 ∧
      (256 * b0 + b1 : Int) = sampleConfig.id + (1 : Nat) :=
  C12_universe_bytes stdDefs stdDefs_wellFormed sampleResolver sampleBase sampleConfig 1
    (by decide) (by decide) (by decide)

/-- The address stored for universe `x` of a multicast output with
`universe + x` in `[0,65535]`. -/
theorem construct_multicast_address (d : Defs) (r : String → Bool → Nat × Bool)
    (base : UDPOutputData) (config : Config) (x : Nat)
    (hmc : base.type = d.E131_TYPE_MULTICAST)
    (hx : x < (effectiveUniverseCount config).toNat)
    (hlo : 0 ≤ config.id + x) (hhi : config.id + x ≤ 65535) :
    (construct d r base config).1.e131Addresses[x]? =
      some { sin_family := AF_INET, sin_port := htons d.E131_DEST_PORT,
             sin_addr := mkInAddr 239 255 ((config.id + x) / 256).toNat
               ((config.id + x) % 256).toNat } := by
  obtain ⟨hf, hp⟩ := ctorResolve_family_port d r base config
  rw [construct_addresses, if_pos hx]
  simp only [ctorAddress, if_pos hmc, inet_addr_multicast _ hlo hhi, hf, hp]

/-- Counterexample to C13 as stated: a multicast output with universe id 63999
(inside `[0,63999]`) and 1538 universes. For index 1537 the universe is 65536,
its third part 256 is not in `[0,255]`, the printed string is not a dotted
quad, and the address stored is `INADDR_NONE`, that is 255.255.255.255, which
is not in 239.255.x.y. -/
theorem C13_counterexample :
    sampleMulticastBase.type = stdDefs.E131_TYPE_MULTICAST ∧
    0 ≤ overflowMulticastConfig.id ∧ overflowMulticastConfig.id ≤ 63999 ∧
    ((1537 : Nat) : Int) <
      (construct stdDefs sampleResolver sampleMulticastBase
        overflowMulticastConfig).1.universeCount ∧
    (overflowMulticastConfig.id + (1537 : Nat)).tdiv 256 = 256 ∧
    ∃ a : SockAddrIn,
      (construct stdDefs sampleResolver sampleMulticastBase
        overflowMulticastConfig).1.e131Addresses[1537]? = some a ∧
      a.sin_addr = INADDR_NONE ∧ octet a.sin_addr 0 = 255 ∧ octet a.sin_addr 0 ≠ 239 := by
  refine ⟨rfl, by decide, by decide, by decide, by decide,
    ctorAddress stdDefs sampleMulticastBase.type overflowMulticastConfig.id
      (ctorResolve stdDefs sampleResolver sampleMulticastBase overflowMulticastConfig).1.1 1537,
    ?_, ?_, ?_, ?_⟩
  · rw [construct_addresses, if_pos (by decide)]
  · decide
  · decide
  · decide

/-- **C13 (amended).** For every multicast output and every index `x` below
the universe count such that `universe + x` lies in `[0,65535]` (for a
configured universe id in `[0,63999]`: whenever `universe + x ≤ 65535`), the
address stored in `e131Addresses[x]` lies in 239.255.x.y: its first two octets
are 239 and 255, its third and fourth octets are `(universe+x)/256` and
`(universe+x)%256`, and both are in `[0,255]`. -/
theorem C13_multicast_group_range (d : Defs) (toInetAddr : String → Bool → Nat × Bool)
    (base : UDPOutputData) (config : Config) (x : Nat)
    (hmc : base.type = d.E131_TYPE_MULTICAST)
    (hx : (x : Int) < (construct d toInetAddr base config).1.universeCount)
    (hlo : 0 ≤ config.id) (hhi : config.id + x ≤ 65535) :
    ∃ a : SockAddrIn, ∃ o2 o3 : Nat,
      (construct d toInetAddr base config).1.e131Addresses[x]? = some a ∧
      octet a.sin_addr 0 = 239 ∧ octet a.sin_addr 1 = 255 ∧
      octet a.sin_addr 2 = o2 ∧ octet a.sin_addr 3 = o3 ∧
      (o2 : Int) = (config.id + x) / 256 ∧ (o3 : Int) = (config.id + x) % 256 ∧
      o2 ≤ 255 ∧ o3 ≤ 255 := by
  have hx2 : x < (effectiveUniverseCount config).toNat := by
    have : (construct d toInetAddr base config).1.universeCount =
      effectiveUniverseCount config := rfl
    omega
  have hlo2 : 0 ≤ config.id + x := by omega
  obtain ⟨e0, e1, e2, e3⟩ := octet_mkInAddr 239 255 ((config.id + x) / 256).toNat
    ((config.id + x) % 256).toNat (by norm_num) (by norm_num) (by omega) (by omega)
  exact ⟨_, ((config.id + x) / 256).toNat, ((config.id + x) % 256).toNat,
    construct_multicast_address d toInetAddr base config x hmc hx2 hlo2 hhi,
    e0, e1, e2, e3, by omega, by omega, by omega, by omega⟩

/-- Instance of C13 (amended): universe 63999 with 1538 universes, index 1536,
whose universe 65535 is the last one with a group address, 239.255.255.255. -/
theorem C13_multicast_group_range_witness :
    ∃ a : SockAddrIn, ∃ o2 o3 : Nat,
      (construct stdDefs sampleResolver sampleMulticastBase
        overflowMulticastConfig).1.e131Addresses[1536]? = some a ∧
      octet a.sin_addr 0 = 239 ∧ octet a.sin_addr 1 = 255 ∧
      octet a.sin_addr 2 = o2 ∧ octet a.sin_addr 3 = o3 ∧
      (o2 : Int) = (overflowMulticastConfig.id + (1536 : Nat)) / 256 ∧
      (o3 : Int) = (overflowMulticastConfig.id + (1536 : Nat)) % 256 ∧
      o2 ≤ 255 ∧ o3 ≤ 255 :=
  C13_multicast_group_range stdDefs sampleResolver sampleMulticastBase overflowMulticastConfig
    1536 rfl (by decide) (by decide) (by decide)

/-- **C20.** For a well-formed set of constants and every multicast output:
the address computed before the loop for the base universe is the address
stored for index 0; and for every index `x` below the universe count with
`universe + x` in `[0,65535]`, the third and fourth octets of
`e131Addresses[x]` equal the header bytes at `E131_UNIVERSE_INDEX` and
`E131_UNIVERSE_INDEX+1` of header `x`. -/
theorem C20_universe_field_matches_group (d : Defs) (hd : d.WellFormed)
    (toInetAddr : String → Bool → Nat × Bool) (base : UDPOutputData) (config : Config)
    (hmc : base.type = d.E131_TYPE_MULTICAST) :
    (construct d toInetAddr base config).1.e131Addresses[0]? =
      some (ctorResolve d toInetAddr base config).1.1 ∧
    ∀ x : Nat, (x : Int) < (construct d toInetAddr base config).1.universeCount →
      0 ≤ config.id + x → config.id + x ≤ 65535 →
      ∃ a : SockAddrIn, ∃ hdr : List Nat, ∃ b0 b1 : Nat,
        (construct d toInetAddr base config).1.e131Addresses[x]? = some a ∧
        (construct d toInetAddr base config).1.e131Headers[x]? = some hdr ∧
        hdr[d.E131_UNIVERSE_INDEX]? = some b0 ∧ hdr[d.E131_UNIVERSE_INDEX + 1]? = some b1 ∧
        octet a.sin_addr 2 = b0 ∧ octet a.sin_addr 3 = b1 := by
  have hpos := effectiveUniverseCount_pos config
  refine ⟨?_, ?_⟩
  · rw [construct_addresses, if_pos (by omega)]
    congr 1
    simp only [ctorAddress, if_pos hmc, ctorResolve]
    simp
  · intro x hx hlo hhi
    have hx2 : x < (effectiveUniverseCount config).toNat := by
      have : (construct d toInetAddr base config).1.universeCount =
        effectiveUniverseCount config := rfl
      omega
    obtain ⟨-, f1, f2, -⟩ :=
      buildHeader_fields d hd config.priority base.channelCount (config.id + x)
    obtain ⟨-, -, e2, e3⟩ := octet_mkInAddr 239 255 ((config.id + x) / 256).toNat
      ((config.id + x) % 256).toNat (by norm_num) (by norm_num) (by omega) (by omega)
    refine ⟨_, buildHeader d config.priority base.channelCount (config.id + x), _, _,
      construct_multicast_address d toInetAddr base config x hmc hx2 hlo hhi, ?_, f1, f2,
      ?_, ?_⟩
    · rw [construct_headers, if_pos hx2]
    · rw [e2, Int.tdiv_eq_ediv hlo (by norm_num)]
      unfold toU8; omega
    · rw [e3, Int.tmod_eq_emod hlo (by norm_num)]
      unfold toU8; omega

/-- Instance of C20: scenario B, universe index 2 (universe 7, group
239.255.0.7). -/
theorem C20_universe_field_matches_group_witness :
    sampleMulticastBase.type = stdDefs.E131_TYPE_MULTICAST ∧
    ∃ a : SockAddrIn, ∃ hdr : List Nat, ∃ b0 b1 : Nat,
      sampleMulticastOutput.e131Addresses[2]? = some a ∧
      sampleMulticastOutput.e131Headers[2]? = some hdr ∧
      hdr[stdDefs.E131_UNIVERSE_INDEX]? = some b0 ∧
      hdr[stdDefs.E131_UNIVERSE_INDEX + 1]? = some b1 ∧
      octet a.sin_addr 2 = b0 ∧ octet a.sin_addr 3 = b1 :=
  ⟨rfl, (C20_universe_field_matches_group stdDefs stdDefs_wellFormed sampleResolver
    sampleMulticastBase sampleMulticastConfig rfl).2 2 (by decide) (by decide) (by decide)⟩

/-! ## Skip counter, snapshot save and batch entries -/

/-- The answer of the query of universe `x`, read from the loop of a valid and
active output. -/
theorem PrepareData_answers {σ : Type} (d : Defs) (fs : FrameStore σ) (o : E131OutputData)
    (store : σ) (cd : ChannelData) (msgs : UDPOutputMessages)
    (hv : o.valid = true) (ha : o.active = true) :
    (queryResults (PrepareData d fs o store cd msgs).trace).length = o.universeCount.toNat ∧
    ∀ x : Nat, x < o.universeCount.toNat →
      (queryResults (PrepareData d fs o store cd msgs).trace)[x]? =
        some ((queryResults (PrepareData d fs o store cd msgs).trace).getD x false) := by
  obtain ⟨-, -, a3, -, -⟩ := PrepareData_active d fs o store cd msgs hv ha
  obtain ⟨l1, -⟩ := prepareLoop_spec d fs o cd store msgs o.universeCount.toNat
  have hlen : (queryResults (PrepareData d fs o store cd msgs).trace).length =
      o.universeCount.toNat := by rw [a3]; exact l1
  refine ⟨hlen, ?_⟩
  intro x hx
  rw [List.getD_eq_getElem?_getD, List.getElem?_eq_getElem (by rw [hlen]; exact hx)]
  simp

/-- **C14.** For one call of `PrepareData` on a valid, active output: if the
query answered false for at least one universe, `skippedFrames` after the call
is its value before plus 1 (whatever the other answers were); if the query
answered true for every universe, `skippedFrames` after the call is 0. -/
theorem C14_skipped_frames {σ : Type} (d : Defs) (fs : FrameStore σ) (o : E131OutputData)
    (store : σ) (cd : ChannelData) (msgs : UDPOutputMessages)
    (hvalid : o.valid = true) (hactive : o.active = true) :
    ((∃ x : Nat, (x : Int) < o.universeCount ∧
        (queryResults (PrepareData d fs o store cd msgs).trace)[x]? = some false) →
      (PrepareData d fs o store cd msgs).obj.skippedFrames = o.skippedFrames + 1) ∧
    ((∀ x : Nat, (x : Int) < o.universeCount →
        (queryResults (PrepareData d fs o store cd msgs).trace)[x]? = some true) →
      (PrepareData d fs o store cd msgs).obj.skippedFrames = 0) := by
  obtain ⟨a1, -, a3, -, -⟩ := PrepareData_active d fs o store cd msgs hvalid hactive
  obtain ⟨l1, -, -, -, l5, -⟩ := prepareLoop_spec d fs o cd store msgs o.universeCount.toNat
  have hsk : (PrepareData d fs o store cd msgs).obj.skippedFrames =
      if (prepareLoop d fs o cd store msgs o.universeCount.toNat).skipped = true
      then o.skippedFrames + 1 else 0 := by rw [a1]
  rw [a3]
  refine ⟨?_, ?_⟩
  · rintro ⟨x, -, hq⟩
    have hmem : false ∈ queryResults
        (prepareLoop d fs o cd store msgs o.universeCount.toNat).trace := by
      obtain ⟨hlt, hget⟩ := List.getElem?_eq_some.mp hq
      rw [← hget]; exact List.getElem_mem _
    rw [hsk, if_pos (l5.mpr hmem)]
  · intro hall
    have hnot : false ∉ queryResults
        (prepareLoop d fs o cd store msgs o.universeCount.toNat).trace := by
      intro hmem
      obtain ⟨i, hi, hget⟩ := List.getElem_of_mem hmem
      have := hall i (by rw [l1] at hi; omega)
      rw [List.getElem?_eq_getElem hi, hget] at this
      exact Bool.noConfusion (Option.some.inj this)
    rw [hsk, if_neg (fun hc => hnot (l5.mp hc))]

/-- Instance of C14: scenario A with both universes changed resets the
counter to 0. -/
theorem C14_skipped_frames_witness :
    (PrepareData stdDefs alwaysChanged sampleOutput () zeroChannels
      emptyBatch).obj.skippedFrames = 0 := by
  refine (C14_skipped_frames stdDefs alwaysChanged sampleOutput () zeroChannels emptyBatch
    rfl rfl).2 ?_
  intro x hx
  have hu : sampleOutput.universeCount = 2 := rfl
  rw [hu] at hx
  have hx2 : x < 2 := by omega
  interval_cases x <;> rfl

/-- **C15.** For one call of `PrepareData` on a valid, active output: the calls
made to the collaborator are the queries of the universes `0 .. universeCount-1`
in order, followed by exactly one save when at least one query answered true
and by nothing otherwise; the save names the slice that starts at channel index
`startChannel - 1` and has length `channelCount * universeCount`; and the
state of the collaborator afterwards is the state after the last query with
that save applied when a query answered true, and without it otherwise. -/
theorem C15_snapshot_save {σ : Type} (d : Defs) (fs : FrameStore σ) (o : E131OutputData)
    (store : σ) (cd : ChannelData) (msgs : UDPOutputMessages)
    (hvalid : o.valid = true) (hactive : o.active = true) :
    (PrepareData d fs o store cd msgs).trace =
      (List.range o.universeCount.toNat).map (fun (x : Nat) =>
        Event.query (o.startChannel - 1) (x * o.channelCount) o.channelCount
          ((queryResults (PrepareData d fs o store cd msgs).trace).getD x false)) ++
      (if true ∈ queryResults (PrepareData d fs o store cd msgs).trace then
        [Event.save (o.startChannel - 1) (o.channelCount * o.universeCount)] else []) ∧
    ((∃ index len : Int, Event.save index len ∈ (PrepareData d fs o store cd msgs).trace) ↔
      ∃ x : Nat, (x : Int) < o.universeCount ∧
        (queryResults (PrepareData d fs o store cd msgs).trace)[x]? = some true) ∧
    (PrepareData d fs o store cd msgs).store =
      (if true ∈ queryResults (PrepareData d fs o store cd msgs).trace then
        fs.SaveFrame (prepareLoop d fs o cd store msgs o.universeCount.toNat).store cd
          (o.startChannel - 1) (o.channelCount * o.universeCount)
      else (prepareLoop d fs o cd store msgs o.universeCount.toNat).store) := by
  obtain ⟨-, -, a3, a4, a5⟩ := PrepareData_active d fs o store cd msgs hvalid hactive
  obtain ⟨l1, l2, l3, -, -, l6, -⟩ :=
    prepareLoop_spec d fs o cd store msgs o.universeCount.toNat
  have hstart : true ∈ queryResults
      (prepareLoop d fs o cd store msgs o.universeCount.toNat).trace →
      (prepareLoop d fs o cd store msgs o.universeCount.toNat).start =
        o.channelCount * o.universeCount := by
    intro hmem
    have hlen := List.length_pos_of_mem hmem
    rw [l1] at hlen
    have hn : (o.universeCount.toNat : Int) = o.universeCount := by omega
    rw [l3, hn]; ring
  have hshape : (PrepareData d fs o store cd msgs).trace =
      (List.range o.universeCount.toNat).map (fun (x : Nat) =>
        Event.query (o.startChannel - 1) (x * o.channelCount) o.channelCount
          ((queryResults (PrepareData d fs o store cd msgs).trace).getD x false)) ++
      (if true ∈ queryResults (PrepareData d fs o store cd msgs).trace then
        [Event.save (o.startChannel - 1) (o.channelCount * o.universeCount)] else []) := by
    rw [a3, a4]
    by_cases hall : (prepareLoop d fs o cd store msgs o.universeCount.toNat).allSkipped = true
    · rw [if_pos hall, if_neg (l6.mp hall), List.append_nil]
      exact l2
    · have hmem : true ∈ queryResults
          (prepareLoop d fs o cd store msgs o.universeCount.toNat).trace := by
        by_contra hc; exact hall (l6.mpr hc)
      rw [if_neg hall, if_pos hmem, hstart hmem, ← l2]
  refine ⟨hshape, ?_, ?_⟩
  · constructor
    · rintro ⟨index, len, hmem⟩
      rw [hshape] at hmem
      rcases List.mem_append.mp hmem with h | h
      · obtain ⟨x, -, hxe⟩ := List.mem_map.mp h
        exact Event.noConfusion hxe
      · by_cases ht : true ∈ queryResults (PrepareData d fs o store cd msgs).trace
        · obtain ⟨i, hi, hget⟩ := List.getElem_of_mem ht
          refine ⟨i, ?_, ?_⟩
          · rw [a3, l1] at hi; omega
          · rw [List.getElem?_eq_getElem hi, hget]
        · rw [if_neg ht] at h
          exact absurd h (List.not_mem_nil _)
    · rintro ⟨x, -, hq⟩
      have ht : true ∈ queryResults (PrepareData d fs o store cd msgs).trace := by
        obtain ⟨hlt, hget⟩ := List.getElem?_eq_some.mp hq
        rw [← hget]; exact List.getElem_mem _
      refine ⟨o.startChannel - 1, o.channelCount * o.universeCount, ?_⟩
      rw [hshape, if_pos ht]
      exact List.mem_append_right _ (List.mem_singleton.mpr rfl)
  · rw [a5, a3]
    by_cases hall : (prepareLoop d fs o cd store msgs o.universeCount.toNat).allSkipped = true
    · rw [if_pos hall, if_neg (l6.mp hall)]
    · have hmem : true ∈ queryResults
          (prepareLoop d fs o cd store msgs o.universeCount.toNat).trace := by
        by_contra hc; exact hall (l6.mpr hc)
      rw [if_neg hall, if_pos hmem, hstart hmem]

/-- Instance of C15: scenario A with both universes changed makes two queries
and then one save of the 1024 channels from index 0. -/
theorem C15_snapshot_save_witness :
    (PrepareData stdDefs alwaysChanged sampleOutput () zeroChannels emptyBatch).trace =
      [Event.query 0 0 512 true, Event.query 0 512 512 true, Event.save 0 1024] :=
  (C15_snapshot_save stdDefs alwaysChanged sampleOutput () zeroChannels emptyBatch
    rfl rfl).1

/-- Counterexample to C16 as stated: scenario A with `channelCount = -200`,
both universes emitted. The entry of universe 0 has the total length
`2^32 - 74 = 4294967222` (the `int` value `-200 + 126 = -74` stored in the
`unsigned int` field `msg_len`), which is not `channelCount + E131_HEADER_LENGTH`;
after the call its payload segment has the length `2^64 - 200`, which is not
`channelCount`; and the total length is not the sum `126 + (2^64 - 200)` of the
two segment lengths. -/
theorem C16_counterexample :
    negativeOutput.valid = true ∧ negativeOutput.active = true ∧
    negativeOutput.channelCount = -200 ∧
    (queryResults (PrepareData stdDefs alwaysChanged negativeOutput () zeroChannels
      emptyBatch).trace)[0]? = some true ∧
    (PrepareData stdDefs alwaysChanged negativeOutput () zeroChannels emptyBatch).msgs
      (batchKey stdDefs negativeOutput 0) =
      [⟨0, 16, 0, 2, 4294967222⟩, ⟨1, 16, 2, 2, 4294967222⟩] ∧
    (4294967222 : Int) ≠ negativeOutput.channelCount + stdDefs.E131_HEADER_LENGTH ∧
    (PrepareData stdDefs alwaysChanged negativeOutput () zeroChannels
      emptyBatch).obj.e131Iovecs[0]? = some ⟨IovBase.header 0, 126⟩ ∧
    (PrepareData stdDefs alwaysChanged negativeOutput () zeroChannels
      emptyBatch).obj.e131Iovecs[1]? = some ⟨IovBase.channel 0, 18446744073709551416⟩ ∧
    (18446744073709551416 : Int) ≠ negativeOutput.channelCount ∧
    (4294967222 : Int) ≠ 126 + 18446744073709551416 :=
  ⟨rfl, rfl, rfl, rfl, rfl, by decide, rfl, rfl, by decide, by decide⟩

/-- **C16 (amended).** For one call of `PrepareData` on a valid, active output
with `channelCount ≥ 0` and `channelCount + E131_HEADER_LENGTH < 2^32` (so that
the lengths are stored without wrap-around) and every universe `x` whose query
answered true, with the two segments of `x` as the constructor leaves them
(segment `2x` the header `x` with length `E131_HEADER_LENGTH`, segment `2x+1`
of length `channelCount`): the batch holds, under the key of universe `x`, an
entry that names the address `x`, references 2 segments starting at segment
`2x`, and has the total length `channelCount + E131_HEADER_LENGTH`; after the
call segment `2x` still references header `x` with length
`E131_HEADER_LENGTH`, segment `2x+1` points into the channel buffer at
`startChannel - 1 + x * channelCount` with length `channelCount`, the total
length of the entry is the sum of the two segment lengths, and address `x` is
unchanged. -/
theorem C16_batch_entry {σ : Type} (d : Defs) (fs : FrameStore σ) (o : E131OutputData)
    (store : σ) (cd : ChannelData) (msgs : UDPOutputMessages)
    (hvalid : o.valid = true) (hactive : o.active = true)
    (hlo : 0 ≤ o.channelCount) (hhi : o.channelCount + d.E131_HEADER_LENGTH < 4294967296)
    (x : Nat) (hx : (x : Int) < o.universeCount)
    (hemit : (queryResults (PrepareData d fs o store cd msgs).trace)[x]? = some true)
    (hhdr : o.e131Iovecs[x * 2]? = some ⟨IovBase.header x, d.E131_HEADER_LENGTH⟩)
    (hpay : ∃ b : IovBase, o.e131Iovecs[x * 2 + 1]? = some ⟨b, o.channelCount⟩) :
    ∃ e : Mmsghdr, ∃ v0 v1 : Iovec,
      e ∈ (PrepareData d fs o store cd msgs).msgs (batchKey d o x) ∧
      e.msg_name = x ∧ e.msg_iov = x * 2 ∧ e.msg_iovlen = 2 ∧
      e.msg_len = o.channelCount + d.E131_HEADER_LENGTH ∧
      (PrepareData d fs o store cd msgs).obj.e131Iovecs[e.msg_iov]? = some v0 ∧
      (PrepareData d fs o store cd msgs).obj.e131Iovecs[e.msg_iov + 1]? = some v1 ∧
      v0 = ⟨IovBase.header x, d.E131_HEADER_LENGTH⟩ ∧
      v1 = ⟨IovBase.channel (o.startChannel - 1 + x * o.channelCount), o.channelCount⟩ ∧
      e.msg_len = v0.iov_len + v1.iov_len ∧
      (PrepareData d fs o store cd msgs).obj.e131Addresses[e.msg_name]? =
        o.e131Addresses[x]? := by
  have hxn : x < o.universeCount.toNat := by omega
  obtain ⟨a1, a2, a3, -, -⟩ := PrepareData_active d fs o store cd msgs hvalid hactive
  obtain ⟨l1, -, -, -, -, -, l7, -, l9⟩ :=
    prepareLoop_spec d fs o cd store msgs o.universeCount.toNat
  have hq : (queryResults (prepareLoop d fs o cd store msgs
      o.universeCount.toNat).trace).getD x false = true := by
    rw [a3] at hemit
    rw [List.getD_eq_getElem?_getD, hemit]; rfl
  obtain ⟨b, hb⟩ := hpay
  have hs0 : (PrepareData d fs o store cd msgs).obj.e131Iovecs[x * 2]? =
      some ⟨IovBase.header x, d.E131_HEADER_LENGTH⟩ := by
    rw [a1]
    show (prepareLoop d fs o cd store msgs o.universeCount.toNat).e131Iovecs[x * 2]? = _
    have e0 : ¬ (x * 2) % 2 = 1 := by omega
    rw [l9 (x * 2), if_neg (fun hc => e0 hc.1), hhdr]
  have hs1 : (PrepareData d fs o store cd msgs).obj.e131Iovecs[x * 2 + 1]? =
      some ⟨IovBase.channel (o.startChannel - 1 + x * o.channelCount), o.channelCount⟩ := by
    rw [a1]
    show (prepareLoop d fs o cd store msgs o.universeCount.toNat).e131Iovecs[x * 2 + 1]? = _
    have e1 : (x * 2 + 1) % 2 = 1 := by omega
    have e2 : (x * 2 + 1) / 2 = x := by omega
    rw [l9 (x * 2 + 1), e2, if_pos ⟨e1, hxn, hq⟩, hb]
    rfl
  have hlen : (mkMsg d o x).msg_len = o.channelCount + d.E131_HEADER_LENGTH :=
    toUInt32_of_range _ (add_nonneg hlo (Int.natCast_nonneg _)) hhi
  refine ⟨mkMsg d o x, _, _, ?_, rfl, rfl, rfl, hlen, hs0, hs1, rfl, rfl, ?_, ?_⟩
  · rw [a2, l7]
    apply List.mem_append_right
    apply List.mem_map_of_mem
    rw [List.mem_filter]
    have hq2 := hq
    rw [List.getD_eq_getElem?_getD] at hq2
    exact ⟨List.mem_range.mpr hxn, by simp [hq2]⟩
  · rw [hlen]
    show o.channelCount + (d.E131_HEADER_LENGTH : Int) =
      (d.E131_HEADER_LENGTH : Int) + o.channelCount
    ring
  · rw [a1]
    rfl

/-- Instance of C16 (amended): scenario A (512 channels) with both universes
changed, universe 1. -/
theorem C16_batch_entry_witness :
    0 ≤ sampleOutput.channelCount ∧
    sampleOutput.channelCount + stdDefs.E131_HEADER_LENGTH < 4294967296 ∧
    ∃ e : Mmsghdr, ∃ v0 v1 : Iovec,
      e ∈ (PrepareData stdDefs alwaysChanged sampleOutput () zeroChannels emptyBatch).msgs
        (batchKey stdDefs sampleOutput 1) ∧
      e.msg_name = 1 ∧ e.msg_iov = 1 * 2 ∧ e.msg_iovlen = 2 ∧
      e.msg_len = sampleOutput.channelCount + stdDefs.E131_HEADER_LENGTH ∧
      (PrepareData stdDefs alwaysChanged sampleOutput () zeroChannels
        emptyBatch).obj.e131Iovecs[e.msg_iov]? = some v0 ∧
      (PrepareData stdDefs alwaysChanged sampleOutput () zeroChannels
        emptyBatch).obj.e131Iovecs[e.msg_iov + 1]? = some v1 ∧
      v0 = ⟨IovBase.header 1, stdDefs.E131_HEADER_LENGTH⟩ ∧
      v1 = ⟨IovBase.channel (sampleOutput.startChannel - 1 +
        (1 : Nat) * sampleOutput.channelCount), sampleOutput.channelCount⟩ ∧
      e.msg_len = v0.iov_len + v1.iov_len ∧
      (PrepareData stdDefs alwaysChanged sampleOutput () zeroChannels
        emptyBatch).obj.e131Addresses[e.msg_name]? = sampleOutput.e131Addresses[1]? :=
  ⟨by decide, by decide,
   C16_batch_entry stdDefs alwaysChanged sampleOutput () zeroChannels emptyBatch rfl rfl
    (by decide) (by decide) 1 (by decide) rfl rfl ⟨IovBase.null, rfl⟩⟩

/-! ## What `PrepareData` leaves alone -/

/-- Two lists of which one is, entry by entry, the image of the other, have
the same length. -/
theorem length_eq_of_getElem?_map {α : Type} (l l0 : List α)
    (h : ∀ x : Nat, ∃ f : α → α, l[x]? = (l0[x]?).map f) : l.length = l0.length := by
  rcases Nat.lt_trichotomy l.length l0.length with hlt | heq | hgt
  · obtain ⟨f, hf⟩ := h l.length
    rw [List.getElem?_eq_none (le_refl _), List.getElem?_eq_getElem hlt] at hf
    exact Option.noConfusion hf
  · exact heq
  · obtain ⟨f, hf⟩ := h l0.length
    rw [List.getElem?_eq_getElem hgt, List.getElem?_eq_none (le_refl _)] at hf
    exact Option.noConfusion hf

/-- The increment of the sequence byte keeps the length of the header and
every other byte. -/
theorem bumpHeader_frame (d : Defs) (h : List Nat) :
    (bumpHeader d h).length = h.length ∧
    ∀ j : Nat, j ≠ d.E131_SEQUENCE_INDEX → (bumpHeader d h)[j]? = h[j]? := by
  refine ⟨by simp [bumpHeader], ?_⟩
  intro j hj
  simp only [bumpHeader, getElem?_set_if, if_neg hj]

/-- **C17.** For every output (valid and active or not), every collaborator,
channel buffer and batch, `PrepareData` leaves `universeCount`, every
destination address and the other configuration fields as they were; the
vectors of headers and segments keep their sizes; every header keeps its
length and every byte other than the one at `E131_SEQUENCE_INDEX`, and the
header of a universe whose query did not answer true is unchanged altogether;
every segment keeps its length, every segment at an even position (the header
segments) is unchanged altogether, and so is the payload segment of a universe
whose query did not answer true. -/
theorem C17_frame {σ : Type} (d : Defs) (fs : FrameStore σ) (o : E131OutputData)
    (store : σ) (cd : ChannelData) (msgs : UDPOutputMessages) :
    (PrepareData d fs o store cd msgs).obj.universeCount = o.universeCount ∧
    (PrepareData d fs o store cd msgs).obj.e131Addresses = o.e131Addresses ∧
    (PrepareData d fs o store cd msgs).obj.valid = o.valid ∧
    (PrepareData d fs o store cd msgs).obj.active = o.active ∧
    (PrepareData d fs o store cd msgs).obj.type = o.type ∧
    (PrepareData d fs o store cd msgs).obj.startChannel = o.startChannel ∧
    (PrepareData d fs o store cd msgs).obj.channelCount = o.channelCount ∧
    (PrepareData d fs o store cd msgs).obj.universeId = o.universeId ∧
    (PrepareData d fs o store cd msgs).obj.priority = o.priority ∧
    (PrepareData d fs o store cd msgs).obj.e131Headers.length = o.e131Headers.length ∧
    (PrepareData d fs o store cd msgs).obj.e131Iovecs.length = o.e131Iovecs.length ∧
    (∀ (x : Nat) (h : List Nat), o.e131Headers[x]? = some h →
      ∃ h1 : List Nat, (PrepareData d fs o store cd msgs).obj.e131Headers[x]? = some h1 ∧
        h1.length = h.length ∧
        (∀ j : Nat, j ≠ d.E131_SEQUENCE_INDEX → h1[j]? = h[j]?) ∧
        ((queryResults (PrepareData d fs o store cd msgs).trace).getD x false = false →
          h1 = h)) ∧
    (∀ (i : Nat) (v : Iovec), o.e131Iovecs[i]? = some v →
      ∃ v1 : Iovec, (PrepareData d fs o store cd msgs).obj.e131Iovecs[i]? = some v1 ∧
        v1.iov_len = v.iov_len ∧
        (i % 2 = 0 → v1 = v) ∧
        ((queryResults (PrepareData d fs o store cd msgs).trace).getD (i / 2) false = false →
          v1 = v)) := by
  by_cases hva : o.valid = true ∧ o.active = true
  · obtain ⟨hv, ha⟩ := hva
    obtain ⟨a1, -, a3, -, -⟩ := PrepareData_active d fs o store cd msgs hv ha
    obtain ⟨-, -, -, -, -, -, -, l8, l9⟩ :=
      prepareLoop_spec d fs o cd store msgs o.universeCount.toNat
    have eH : (PrepareData d fs o store cd msgs).obj.e131Headers =
        (prepareLoop d fs o cd store msgs o.universeCount.toNat).e131Headers := by rw [a1]
    have eV : (PrepareData d fs o store cd msgs).obj.e131Iovecs =
        (prepareLoop d fs o cd store msgs o.universeCount.toNat).e131Iovecs := by rw [a1]
    refine ⟨by rw [a1], by rw [a1], by rw [a1], by rw [a1], by rw [a1], by rw [a1], by rw [a1],
      by rw [a1], by rw [a1], ?_, ?_, ?_, ?_⟩
    · rw [eH]
      apply length_eq_of_getElem?_map
      intro x
      rw [l8 x]
      split_ifs
      · exact ⟨bumpHeader d, rfl⟩
      · exact ⟨id, by simp⟩
    · rw [eV]
      apply length_eq_of_getElem?_map
      intro i
      rw [l9 i]
      split_ifs
      · exact ⟨_, rfl⟩
      · exact ⟨id, by simp⟩
    · intro x h hh
      rw [eH, a3, l8 x, hh]
      by_cases hc : x < o.universeCount.toNat ∧ (queryResults
          (prepareLoop d fs o cd store msgs o.universeCount.toNat).trace).getD x false = true
      · rw [if_pos hc]
        obtain ⟨b1, b2⟩ := bumpHeader_frame d h
        refine ⟨bumpHeader d h, rfl, b1, b2, ?_⟩
        intro hf
        rw [hc.2] at hf
        exact Bool.noConfusion hf
      · rw [if_neg hc]
        exact ⟨h, rfl, rfl, fun _ _ => rfl, fun _ => rfl⟩
    · intro i v hv0
      rw [eV, a3, l9 i, hv0]
      by_cases hc : i % 2 = 1 ∧ i / 2 < o.universeCount.toNat ∧ (queryResults
          (prepareLoop d fs o cd store msgs o.universeCount.toNat).trace).getD (i / 2) false
            = true
      · rw [if_pos hc]
        refine ⟨_, rfl, rfl, ?_, ?_⟩
        · intro he; omega
        · intro hf
          rw [hc.2.2] at hf
          exact Bool.noConfusion hf
      · rw [if_neg hc]
        exact ⟨v, rfl, rfl, fun _ => rfl, fun _ => rfl⟩
  · have hc : (o.valid && o.active) = false := by
      cases h1 : o.valid <;> cases h2 : o.active <;> simp_all
    have key : PrepareData d fs o store cd msgs =
        { obj := o, msgs := msgs, store := store, trace := [] } := by
      simp only [PrepareData, hc, Bool.false_eq_true, if_false]
    rw [key]
    refine ⟨rfl, rfl, rfl, rfl, rfl, rfl, rfl, rfl, rfl, rfl, rfl, ?_, ?_⟩
    · intro x h hh
      exact ⟨h, hh, rfl, fun _ _ => rfl, fun _ => rfl⟩
    · intro i v hv0
      exact ⟨v, hv0, rfl, fun _ => rfl, fun _ => rfl⟩

/-- Instance of C17: scenario A with both universes changed, header and
segments of universe 1. -/
theorem C17_frame_witness :
    (PrepareData stdDefs alwaysChanged sampleOutput () zeroChannels
      emptyBatch).obj.e131Addresses = sampleOutput.e131Addresses ∧
    (PrepareData stdDefs alwaysChanged sampleOutput () zeroChannels
      emptyBatch).obj.e131Headers.length = sampleOutput.e131Headers.length ∧
    (PrepareData stdDefs alwaysChanged sampleOutput () zeroChannels
      emptyBatch).obj.e131Iovecs.length = sampleOutput.e131Iovecs.length :=
  ⟨(C17_frame stdDefs alwaysChanged sampleOutput () zeroChannels emptyBatch).2.1,
   (C17_frame stdDefs alwaysChanged sampleOutput () zeroChannels
      emptyBatch).2.2.2.2.2.2.2.2.2.1,
   (C17_frame stdDefs alwaysChanged sampleOutput () zeroChannels
      emptyBatch).2.2.2.2.2.2.2.2.2.2.1⟩

/-! ## The skeleton and the encoded lengths -/

/-- The skeleton has 126 bytes. -/
theorem E131header_length : E131header.length = 126 := rfl

/-- **C18.** For a well-formed set of constants, every configuration and every
universe index `x` below the universe count, the header built by the
constructor is the copy of the first `E131_HEADER_LENGTH` bytes of the
(126-byte) skeleton `E131header` with only the variable fields patched: it has
`E131_HEADER_LENGTH` bytes (126 when the constant is 126); every byte whose
index is not one of the patched indices (priority, sequence, the two universe
bytes, the two count bytes, and the two bytes of each of the three length
fields) equals the skeleton byte at the same index; the priority byte equals
`priority` for every `priority` in `[0,200]`; and the sequence byte is 0. -/
theorem C18_skeleton_patched (d : Defs) (hd : d.WellFormed)
    (toInetAddr : String → Bool → Nat × Bool) (base : UDPOutputData) (config : Config) (x : Nat)
    (hx : (x : Int) < (construct d toInetAddr base config).1.universeCount) :
    ∃ hdr : List Nat,
      (construct d toInetAddr base config).1.e131Headers[x]? = some hdr ∧
      E131header.length = 126 ∧
      hdr.length = d.E131_HEADER_LENGTH ∧
      (d.E131_HEADER_LENGTH = 126 → hdr.length = 126) ∧
      (∀ j : Nat, j < d.E131_HEADER_LENGTH → j ∉ d.patchedIndices →
        hdr[j]? = E131header[j]?) ∧
      (0 ≤ config.priority → config.priority ≤ 200 →
        ∃ p : Nat, hdr[d.E131_PRIORITY_INDEX]? = some p ∧ (p : Int) = config.priority) ∧
      hdr[d.E131_SEQUENCE_INDEX]? = some 0 := by
  have hx2 : x < (effectiveUniverseCount config).toNat := by
    have : (construct d toInetAddr base config).1.universeCount =
      effectiveUniverseCount config := rfl
    omega
  obtain ⟨hL, -, -⟩ := hd.facts
  obtain ⟨fp, -, -, -, -, -, -, -, -, -, -, fs⟩ :=
    buildHeader_fields d hd config.priority base.channelCount (config.id + x)
  have hlen : (buildHeader d config.priority base.channelCount (config.id + x)).length =
      d.E131_HEADER_LENGTH := by
    simp only [buildHeader, patchHeader, List.length_set, List.length_take]
    have : E131header.length = 126 := rfl
    omega
  refine ⟨buildHeader d config.priority base.channelCount (config.id + x), ?_, rfl, hlen,
    fun h => by rw [hlen, h], ?_, ?_, fs⟩
  · rw [construct_headers, if_pos hx2]
  · intro j hj hnot
    simp only [Defs.patchedIndices, List.mem_cons, List.mem_singleton, List.not_mem_nil,
      or_false, not_or] at hnot
    obtain ⟨n1, n2, n3, n4, n5, n6, n7, n8, n9, n10, n11, n12⟩ := hnot
    rw [buildHeader_getElem? d hd]
    simp only [n1, n2, n3, n4, n5, n6, n7, n8, n9, n10, n11, n12, if_false]
    rw [List.getElem?_take, if_pos hj]
  · intro h0 h200
    refine ⟨toU8 config.priority, fp, ?_⟩
    unfold toU8; omega

/-- Instance of C18: scenario A, universe index 1, priority 100. -/
theorem C18_skeleton_patched_witness :
    ∃ hdr : List Nat,
      sampleOutput.e131Headers[1]? = some hdr ∧
      E131header.length = 126 ∧
      hdr.length = stdDefs.E131_HEADER_LENGTH ∧
      (stdDefs.E131_HEADER_LENGTH = 126 → hdr.length = 126) ∧
      (∀ j : Nat, j < stdDefs.E131_HEADER_LENGTH → j ∉ stdDefs.patchedIndices →
        hdr[j]? = E131header[j]?) ∧
      (0 ≤ sampleConfig.priority → sampleConfig.priority ≤ 200 →
        ∃ p : Nat, hdr[stdDefs.E131_PRIORITY_INDEX]? = some p ∧
          (p : Int) = sampleConfig.priority) ∧
      hdr[stdDefs.E131_SEQUENCE_INDEX]? = some 0 :=
  C18_skeleton_patched stdDefs stdDefs_wellFormed sampleResolver sampleBase sampleConfig 1
    (by decide)

/-- The bytes of the skeleton at the positions 16, 38, 115 (the flag and length
fields of the three layers) and 123 (the property value count). -/
theorem E131header_length_bytes :
    E131header[16]? = some 0x72 ∧ E131header[17]? = some 0x6e ∧
    E131header[38]? = some 0x72 ∧ E131header[39]? = some 0x58 ∧
    E131header[115]? = some 0x72 ∧ E131header[116]? = some 0x0b ∧
    E131header[123]? = some 0x02 ∧ E131header[124]? = some 0x01 := by
  refine ⟨?_, ?_, ?_, ?_, ?_, ?_, ?_, ?_⟩ <;> simp [E131header]

/-- The same bytes, for constants that place the fields at these positions. -/
theorem E131header_length_bytes_at (d : Defs) (i1 : d.E131_RLP_COUNT_INDEX = 16)
    (i2 : d.E131_FRAMING_COUNT_INDEX = 38) (i3 : d.E131_DMP_COUNT_INDEX = 115)
    (i4 : d.E131_COUNT_INDEX = 123) :
    E131header[d.E131_RLP_COUNT_INDEX]? = some 0x72 ∧
    E131header[d.E131_RLP_COUNT_INDEX + 1]? = some 0x6e ∧
    E131header[d.E131_FRAMING_COUNT_INDEX]? = some 0x72 ∧
    E131header[d.E131_FRAMING_COUNT_INDEX + 1]? = some 0x58 ∧
    E131header[d.E131_DMP_COUNT_INDEX]? = some 0x72 ∧
    E131header[d.E131_DMP_COUNT_INDEX + 1]? = some 0x0b ∧
    E131header[d.E131_COUNT_INDEX]? = some 0x02 ∧
    E131header[d.E131_COUNT_INDEX + 1]? = some 0x01 := by
  rw [i1, i2, i3, i4]
  exact E131header_length_bytes

/-- The two bytes kept for a length `k + cc` with `0 ≤ k + cc < 4096`: their
low 12 bits, and their values. -/
theorem length_bytes (c : Int) (h0 : 0 ≤ c) (h1 : c < 4096) :
    (((toU8 (c.tdiv 256 + 0x70) % 16 * 256 + toU8 (c.tmod 256) : Nat) : Int) = c) ∧
    toU8 (c.tdiv 256 + 0x70) = (c / 256).toNat + 0x70 ∧
    toU8 (c.tmod 256) = (c % 256).toNat := by
  rw [Int.tdiv_eq_ediv h0 (by norm_num), Int.tmod_eq_emod h0 (by norm_num)]
  unfold toU8
  refine ⟨by omega, by omega, by omega⟩

/-- **C19.** For a well-formed set of constants with header length 126, every
configuration with `channelCount` in `[0,512]` and every universe index `x`
below the universe count: the total length `msg_len` that `PrepareData` gives
the message of universe `x` is `126 + channelCount`, and the lengths held in
the low 12 bits of the root, framing and DMP length fields of header `x` are
`msg_len - 16`, `msg_len - 38` and `msg_len - 115`. For `channelCount = 512`
the length bytes are `0x72 0x6e`, `0x72 0x58`, `0x72 0x0b` and the count bytes
`0x02 0x01`; these are the bytes of the skeleton at 16, 38, 115 and 123, so
that with the fields at these positions the patched bytes coincide with the
bytes already present in the skeleton. -/
theorem C19_length_consistency (d : Defs) (hd : d.WellFormed)
    (hlen : d.E131_HEADER_LENGTH = 126)
    (toInetAddr : String → Bool → Nat × Bool) (base : UDPOutputData) (config : Config) (x : Nat)
    (hx : (x : Int) < (construct d toInetAddr base config).1.universeCount)
    (hlo : 0 ≤ base.channelCount) (hhi : base.channelCount ≤ 512) :
    ∃ hdr : List Nat, ∃ r0 r1 f0 f1 m0 m1 c0 c1 : Nat,
      (construct d toInetAddr base config).1.e131Headers[x]? = some hdr ∧
      hdr[d.E131_RLP_COUNT_INDEX]? = some r0 ∧ hdr[d.E131_RLP_COUNT_INDEX + 1]? = some r1 ∧
      hdr[d.E131_FRAMING_COUNT_INDEX]? = some f0 ∧
      hdr[d.E131_FRAMING_COUNT_INDEX + 1]? = some f1 ∧
      hdr[d.E131_DMP_COUNT_INDEX]? = some m0 ∧ hdr[d.E131_DMP_COUNT_INDEX + 1]? = some m1 ∧
      hdr[d.E131_COUNT_INDEX]? = some c0 ∧ hdr[d.E131_COUNT_INDEX + 1]? = some c1 ∧
      (mkMsg d (construct d toInetAddr base config).1 x).msg_len = 126 + base.channelCount ∧
      ((r0 % 16 * 256 + r1 : Nat) : Int) =
        (mkMsg d (construct d toInetAddr base config).1 x).msg_len - 16 ∧
      ((f0 % 16 * 256 + f1 : Nat) : Int) =
        (mkMsg d (construct d toInetAddr base config).1 x).msg_len - 38 ∧
      ((m0 % 16 * 256 + m1 : Nat) : Int) =
        (mkMsg d (construct d toInetAddr base config).1 x).msg_len - 115 ∧
      (base.channelCount = 512 →
        r0 = 0x72 ∧ r1 = 0x6e ∧ f0 = 0x72 ∧ f1 = 0x58 ∧ m0 = 0x72 ∧ m1 = 0x0b ∧
        c0 = 0x02 ∧ c1 = 0x01 ∧
        (d.E131_RLP_COUNT_INDEX = 16 → d.E131_FRAMING_COUNT_INDEX = 38 →
          d.E131_DMP_COUNT_INDEX = 115 → d.E131_COUNT_INDEX = 123 →
          E131header[d.E131_RLP_COUNT_INDEX]? = some r0 ∧
          E131header[d.E131_RLP_COUNT_INDEX + 1]? = some r1 ∧
          E131header[d.E131_FRAMING_COUNT_INDEX]? = some f0 ∧
          E131header[d.E131_FRAMING_COUNT_INDEX + 1]? = some f1 ∧
          E131header[d.E131_DMP_COUNT_INDEX]? = some m0 ∧
          E131header[d.E131_DMP_COUNT_INDEX + 1]? = some m1 ∧
          E131header[d.E131_COUNT_INDEX]? = some c0 ∧
          E131header[d.E131_COUNT_INDEX + 1]? = some c1)) := by
  have hx2 : x < (effectiveUniverseCount config).toNat := by
    have : (construct d toInetAddr base config).1.universeCount =
      effectiveUniverseCount config := rfl
    omega
  obtain ⟨-, -, -, g1, g2, f1, f2, f3, f4, f5, f6, -⟩ :=
    buildHeader_fields d hd config.priority base.channelCount (config.id + x)
  obtain ⟨p1, p2, p3⟩ := length_bytes (638 - 16 - (512 - base.channelCount)) (by omega) (by omega)
  obtain ⟨q1, q2, q3⟩ := length_bytes (638 - 38 - (512 - base.channelCount)) (by omega) (by omega)
  obtain ⟨r1, r2, r3⟩ :=
    length_bytes (638 - 115 - (512 - base.channelCount)) (by omega) (by omega)
  have hmsg : (mkMsg d (construct d toInetAddr base config).1 x).msg_len =
      126 + base.channelCount := by
    show toUInt32 (base.channelCount + (d.E131_HEADER_LENGTH : Int)) = _
    rw [hlen]
    have e : base.channelCount + ((126 : Nat) : Int) = 126 + base.channelCount := by
      push_cast; ring
    rw [e]
    exact toUInt32_of_range _ (add_nonneg (by norm_num) hlo)
      (lt_of_le_of_lt (add_le_add_left hhi 126) (by norm_num))
  refine ⟨buildHeader d config.priority base.channelCount (config.id + x),
    toU8 ((638 - 16 - (512 - base.channelCount)).tdiv 256 + 0x70),
    toU8 ((638 - 16 - (512 - base.channelCount)).tmod 256),
    toU8 ((638 - 38 - (512 - base.channelCount)).tdiv 256 + 0x70),
    toU8 ((638 - 38 - (512 - base.channelCount)).tmod 256),
    toU8 ((638 - 115 - (512 - base.channelCount)).tdiv 256 + 0x70),
    toU8 ((638 - 115 - (512 - base.channelCount)).tmod 256),
    toU8 ((base.channelCount + 1).tdiv 256),
    toU8 ((base.channelCount + 1).tmod 256),
    ?_, f1, f2, f3, f4, f5, f6, g1, g2, hmsg, ?_, ?_, ?_, ?_⟩
  · rw [construct_headers, if_pos hx2]
  · rw [hmsg, p1]; ring
  · rw [hmsg, q1]; ring
  · rw [hmsg, r1]; ring
  · intro h512
    rw [h512]
    refine ⟨by decide, by decide, by decide, by decide, by decide, by decide, by decide,
      by decide, ?_⟩
    intro i1 i2 i3 i4
    exact E131header_length_bytes_at d i1 i2 i3 i4

/-- Instance of C19: scenario A (512 channels), universe index 1, with the
standard positions of the fields. -/
theorem C19_length_consistency_witness :
    stdDefs.WellFormed ∧ stdDefs.E131_HEADER_LENGTH = 126 ∧
    (mkMsg stdDefs sampleOutput 1).msg_len = 126 + 512 ∧
    sampleOutput.e131Headers[1]? = some (buildHeader stdDefs 100 512 (1 + (1 : Nat))) ∧
    ∃ hdr : List Nat, ∃ r0 r1 f0 f1 m0 m1 c0 c1 : Nat,
      sampleOutput.e131Headers[1]? = some hdr ∧
      hdr[16]? = some r0 ∧ hdr[17]? = some r1 ∧ hdr[38]? = some f0 ∧ hdr[39]? = some f1 ∧
      hdr[115]? = some m0 ∧ hdr[116]? = some m1 ∧ hdr[123]? = some c0 ∧ hdr[124]? = some c1 ∧
      ((r0 % 16 * 256 + r1 : Nat) : Int) = 126 + 512 - 16 ∧
      ((f0 % 16 * 256 + f1 : Nat) : Int) = 126 + 512 - 38 ∧
      ((m0 % 16 * 256 + m1 : Nat) : Int) = 126 + 512 - 115 ∧
      E131header[16]? = some r0 ∧ E131header[17]? = some r1 ∧
      E131header[38]? = some f0 ∧ E131header[39]? = some f1 ∧
      E131header[115]? = some m0 ∧ E131header[116]? = some m1 ∧
      E131header[123]? = some c0 ∧ E131header[124]? = some c1 := by
  obtain ⟨hdr, r0, r1, f0, f1, m0, m1, c0, c1, h1, h2, h3, h4, h5, h6, h7, h8, h9, h10, h11,
      h12, h13, h14⟩ :=
    C19_length_consistency stdDefs stdDefs_wellFormed rfl sampleResolver sampleBase sampleConfig
      1 (by decide) (by decide) (by decide)
  obtain ⟨-, -, -, -, -, -, -, -, k⟩ := h14 rfl
  obtain ⟨k1, k2, k3, k4, k5, k6, k7, k8⟩ := k rfl rfl rfl rfl
  have hmsg : (mkMsg stdDefs sampleOutput 1).msg_len = 126 + 512 := rfl
  have hh : sampleOutput.e131Headers[1]? = some (buildHeader stdDefs 100 512 (1 + (1 : Nat))) :=
    (construct_headers stdDefs sampleResolver sampleBase sampleConfig 1).trans
      (if_pos (by decide))
  refine ⟨stdDefs_wellFormed, rfl, hmsg, hh, hdr, r0, r1, f0, f1, m0, m1, c0, c1, h1, h2, h3, h4,
    h5, h6, h7, h8, h9, ?_, ?_, ?_, k1, k2, k3, k4, k5, k6, k7, k8⟩
  · rw [h11]; rfl
  · rw [h12]; rfl
  · rw [h13]; rfl

end E131
